import Mathlib

/-!
Shallow embedding of the core decision-making engine of the
GITCRUSHERS_Logistics-AI repository (load assignment, route optimisation,
scenario generation, decision evaluation, control-loop transition), together
with proofs settling the frozen claims C1-C10.

Modelling conventions, shared by all definitions below:

* Python `float` values are modelled as `ℚ` (the algorithms use only field
  arithmetic and comparisons; no claim depends on binary rounding).
* `datetime` values are modelled as `ℚ` (hours on an absolute axis);
  `datetime.utcnow()` is passed in explicitly as a `now : ℚ` parameter;
  `timedelta(hours=h)` is addition of `h`.
* `Location.distance_to` (Haversine, `src/models.py`) involves transcendental
  functions that have no exact executable embedding, so every function that
  calls it is parameterised by a distance function
  `dist : Location → Location → ℚ`.  All confirmed theorems hold for every
  `dist`, hence in particular for the source's Haversine.  Concrete witnesses
  and counterexamples place all locations at the same coordinates and use
  `fun _ _ => 0`, which agrees with Haversine there (distance of a point to
  itself is 0).
* `float('inf')` sentinels are modelled as `none` in an `Option ℚ`
  (an absent value compares greater than every real cost, exactly as the
  source's `cost < best_cost` tests behave).
* Python's `raise` is modelled by returning `Except.error`.
* String fields that no modelled code path ever reads (descriptions,
  rationale/trace text, timestamps inside result records) are elided from the
  corresponding structures.
-/

/-- Python truthiness of an `Optional[str]` field: `None` and `""` are falsy. -/
def pyStrOptTruthy : Option String → Bool
  | none => false
  | some s => !(s == "")

/-- Stable insertion used to model CPython's stable `sorted`/`list.sort`:
the new element `a` (which comes from earlier in the original list) is placed
before the first already-placed element `x` with `le a x`. -/
def pyInsert (le : α → α → Bool) (a : α) : List α → List α
  | [] => [a]
  | x :: xs => if le a x then a :: x :: xs else x :: pyInsert le a xs

/-- Stable sort (`sorted(xs, key=...)`, possibly with `reverse=True`, is
obtained by choosing `le` accordingly): elements are inserted from the right,
so ties keep their original relative order. -/
def pySortBy (le : α → α → Bool) : List α → List α
  | [] => []
  | a :: xs => pyInsert le a (pySortBy le xs)

theorem mem_pyInsert {le : α → α → Bool} {a b : α} {l : List α} :
    b ∈ pyInsert le a l ↔ b = a ∨ b ∈ l := by
  induction l with
  | nil => simp [pyInsert]
  | cons x xs ih =>
    by_cases h : le a x <;> simp [pyInsert, h, ih] <;> tauto

theorem mem_pySortBy {le : α → α → Bool} {b : α} {l : List α} :
    b ∈ pySortBy le l ↔ b ∈ l := by
  induction l with
  | nil => simp [pySortBy]
  | cons x xs ih => simp [pySortBy, mem_pyInsert, ih]

theorem pyInsert_perm (le : α → α → Bool) (a : α) (l : List α) :
    (pyInsert le a l).Perm (a :: l) := by
  induction l with
  | nil => simp [pyInsert]
  | cons x xs ih =>
    by_cases h : le a x
    · simp [pyInsert, h]
    · simp only [pyInsert, h, if_neg]
      exact (ih.cons x).trans (List.Perm.swap a x xs)

theorem pySortBy_perm (le : α → α → Bool) (l : List α) :
    (pySortBy le l).Perm l := by
  induction l with
  | nil => simp [pySortBy]
  | cons x xs ih => exact (pyInsert_perm le x (pySortBy le xs)).trans (ih.cons x)

/-- A transitive total boolean comparison keeps insertion sort sorted. -/
theorem pySortBy_pairwise {le : α → α → Bool}
    (htot : ∀ a b, le a b = true ∨ le b a = true)
    (htrans : ∀ a b c, le a b = true → le b c = true → le a c = true)
    (l : List α) : (pySortBy le l).Pairwise (fun a b => le a b = true) := by
  induction l with
  | nil => simp [pySortBy]
  | cons x xs ih =>
    have key : ∀ (m : List α), m.Pairwise (fun a b => le a b = true) →
        (pyInsert le x m).Pairwise (fun a b => le a b = true) := by
      intro m hm
      induction m with
      | nil => simp [pyInsert]
      | cons y ys ihm =>
        by_cases h : le x y
        · rw [pyInsert, if_pos h]
          refine List.Pairwise.cons ?_ hm
          intro b hb
          rcases List.mem_cons.mp hb with hb | hb
          · simpa [hb] using h
          · exact htrans x y b h ((List.pairwise_cons.mp hm).1 b hb)
        · rw [pyInsert, if_neg h]
          have hyx : le y x = true := by
            rcases htot x y with h1 | h1
            · exact absurd h1 (by simpa using h)
            · exact h1
          have hys := (List.pairwise_cons.mp hm).2
          refine List.Pairwise.cons ?_ (ihm hys)
          intro b hb
          rcases mem_pyInsert.mp hb with hb | hb
          · simpa [hb] using hyx
          · exact (List.pairwise_cons.mp hm).1 b hb
    exact key (pySortBy le xs) ih

theorem pyInsert_length (le : α → α → Bool) (a : α) (l : List α) :
    (pyInsert le a l).length = l.length + 1 := by
  induction l with
  | nil => simp [pyInsert]
  | cons x xs ih => by_cases h : le a x <;> simp [pyInsert, h, ih]

theorem pySortBy_length (le : α → α → Bool) (l : List α) :
    (pySortBy le l).length = l.length := by
  induction l with
  | nil => simp [pySortBy]
  | cons x xs ih => simp [pySortBy, pyInsert_length, ih]

/-- Banker's rounding of a rational to the nearest integer
(Python's `round` semantics: ties go to the even integer). -/
def pyRoundInt (x : ℚ) : ℤ :=
  let f : ℤ := ⌊x⌋
  let r : ℚ := x - f
  if r < 1/2 then f
  else if 1/2 < r then f + 1
  else if Even f then f else f + 1

/-- Python's `round(x, 3)` on the rational model. -/
def round3 (x : ℚ) : ℚ := (pyRoundInt (x * 1000) : ℚ) / 1000

/-- Python's `round(x, 2)`. -/
def round2 (x : ℚ) : ℚ := (pyRoundInt (x * 100) : ℚ) / 100

/-- Python's `round(x, 1)`. -/
def round1 (x : ℚ) : ℚ := (pyRoundInt (x * 10) : ℚ) / 10

/-! ## Data model (`src/models.py`) -/

/-- `Location` (`src/models.py`): latitude/longitude; the optional
address/name display fields are elided (never read by the embedded code). -/
structure Location where
  latitude : ℚ
  longitude : ℚ
deriving DecidableEq, Repr

/-- `TruckStatus` enum. -/
inductive TruckStatus where
  | idle | en_route | loading | unloading | maintenance | stuck | delayed
deriving DecidableEq, Repr

/-- `LoadPriority` enum. -/
inductive LoadPriority where
  | low | normal | high | urgent | critical
deriving DecidableEq, Repr

/-- `TrafficLevel` enum. -/
inductive TrafficLevel where
  | free_flow | light | moderate | heavy | standstill
deriving DecidableEq, Repr

/-- `ActionType` enum. -/
inductive ActionType where
  | reroute | reassign | dispatch | wait | notify | escalate
deriving DecidableEq, Repr

/-- `ActionType(s)` constructor lookup: `some` exactly on the enum values. -/
def actionTypeOfString : String → Option ActionType
  | "reroute" => some .reroute
  | "reassign" => some .reassign
  | "dispatch" => some .dispatch
  | "wait" => some .wait
  | "notify" => some .notify
  | "escalate" => some .escalate
  | _ => none

/-- `Truck` (`src/models.py`).  `driver_id`, `last_gps_reading` and the
cumulative metric fields are elided: no embedded code path reads them, and
the claims that compare trucks do so under distinct-id hypotheses where
equality of the remaining fields already separates the trucks. -/
structure Truck where
  id : String
  name : String
  status : TruckStatus
  current_location : Option Location
  current_load_id : Option String
  capacity_kg : ℚ
  fuel_level_percent : ℚ
deriving DecidableEq, Repr

/-- `Load` (`src/models.py`).  `volume_m3`, the pickup window, the route id
and the picked-up/delivered timestamps are elided (never read by the
embedded code). -/
structure Load where
  id : String
  description : String
  weight_kg : ℚ
  priority : LoadPriority
  pickup_location : Location
  delivery_location : Location
  delivery_deadline : Option ℚ
  assigned_truck_id : Option String
deriving DecidableEq, Repr

/-- `TrafficCondition` (`src/models.py`), reduced to the fields the embedded
code reads (`delay_factor` is derived from `level`). -/
structure TrafficCondition where
  segment_id : String
  level : TrafficLevel
deriving DecidableEq, Repr

/-- `TrafficCondition.delay_factor` property. -/
def TrafficCondition.delay_factor (tc : TrafficCondition) : ℚ :=
  match tc.level with
  | .free_flow => 1.0
  | .light => 1.1
  | .moderate => 1.3
  | .heavy => 1.7
  | .standstill => 3.0

/-! ## Route optimizer (`src/algorithms/route_optimizer.py`) -/

/-- `RouteSegment` (the Python field names `start`/`end` collide with Lean
keywords, hence the `seg_` markers). -/
structure RouteSegment where
  seg_start : Location
  seg_end : Location
  distance_km : ℚ
  estimated_time_minutes : ℚ
  traffic_factor : ℚ
deriving DecidableEq, Repr

/-- `OptimizedRoute`. -/
structure OptimizedRoute where
  segments : List RouteSegment
  total_distance_km : ℚ
  total_time_minutes : ℚ
  total_cost : ℚ
  fuel_consumption_liters : ℚ
  confidence_score : ℚ
deriving DecidableEq, Repr

/-- Total matrix lookup used to read a `List (List ℚ)` distance matrix.
Every in-range access of the source is in range here as well. -/
def mGet (m : List (List ℚ)) (i j : ℕ) : ℚ := (m.getD i []).getD j 0

/-- `RouteOptimizer._calculate_distance_matrix`. -/
def calculateDistanceMatrix (dist : Location → Location → ℚ)
    (locations : List Location) : List (List ℚ) :=
  locations.mapIdx fun i a => locations.mapIdx fun j b =>
    if i = j then 0 else dist a b

/-- `RouteOptimizer._apply_traffic_factors`: converts the distance matrix to
a time matrix scaled by the average delay factor (entry `i ≠ j` becomes
`distance / 60 * avg_factor * 60`; the diagonal stays `0`). -/
def applyTrafficFactors (m : List (List ℚ)) (traffic : List TrafficCondition) :
    List (List ℚ) :=
  if traffic.isEmpty then m
  else
    let avgFactor := (traffic.map TrafficCondition.delay_factor).sum / traffic.length
    m.mapIdx fun i row => row.mapIdx fun j d =>
      if i = j then 0 else d / 60 * avgFactor * 60

/-- First index minimising `f`, in list order (Python's `min(..., key=f)`
over the ascending iteration order of a small-int set). -/
def argminBy (f : ℕ → ℚ) : List ℕ → Option ℕ
  | [] => none
  | x :: xs =>
    match argminBy f xs with
    | none => some x
    | some y => if f x ≤ f y then some x else some y

/-- Loop of `RouteOptimizer._nearest_neighbor_tsp`; the fuel equals the
number of unvisited nodes, so the loop always runs to completion. -/
def nnAux (m : List (List ℚ)) : ℕ → ℕ → List ℕ → List ℕ
  | 0, _, _ => []
  | fuel + 1, current, unvisited =>
    match argminBy (fun x => mGet m current x) unvisited with
    | none => []
    | some nearest =>
      nearest :: nnAux m fuel nearest (unvisited.erase nearest)

/-- `RouteOptimizer._nearest_neighbor_tsp` (the leading start node `0` is
dropped from the returned tour, as in the source's `tour[1:]`). -/
def nearestNeighborTsp (m : List (List ℚ)) : List ℕ :=
  if m.length = 0 then []
  else nnAux m (m.length - 1) 0 ((List.range m.length).drop 1)

/-- Cyclic tour length of `_two_opt_improve.tour_distance`:
`sum over i of matrix[t[i]][t[(i+1) % len t]]`. -/
def tourDistance (m : List (List ℚ)) (t : List ℕ) : ℚ :=
  ((List.range t.length).map
    (fun i => mGet m (t.getD i 0) (t.getD ((i + 1) % t.length) 0))).sum

/-- The 2-opt move `tour[:i] + tour[i:j+1][::-1] + tour[j+1:]`. -/
def twoOptSwap (t : List ℕ) (i j : ℕ) : List ℕ :=
  t.take i ++ ((t.drop i).take (j + 1 - i)).reverse ++ t.drop (j + 1)

/-- Mutable state of `_two_opt_improve`'s loop: the working `tour`, the best
tour and distance seen, and the `improved` flag. -/
structure TwoOptState where
  tour : List ℕ
  bestTour : List ℕ
  bestDist : ℚ
  improved : Bool
deriving Repr

/-- Body of `_two_opt_improve`'s inner double loop for one `(i, j)` pair. -/
def twoOptVisit (m : List (List ℚ)) (st : TwoOptState) (p : ℕ × ℕ) : TwoOptState :=
  let nt := twoOptSwap st.tour p.1 p.2
  let nd := tourDistance m nt
  if nd < st.bestDist then ⟨nt, nt, nd, true⟩ else st

/-- The `(i, j)` pairs of `for i in range(n): for j in range(i+2, n)`,
in iteration order. -/
def twoOptPairs (n : ℕ) : List (ℕ × ℕ) :=
  (List.range n).flatMap fun i =>
    ((List.range n).filter (fun j => i + 2 ≤ j)).map fun j => (i, j)

/-- One full pass of the double loop (the working tour length never changes,
so the ranges are those of the tour the pass started from). -/
def twoOptPass (m : List (List ℚ)) (n : ℕ) (st : TwoOptState) : TwoOptState :=
  (twoOptPairs n).foldl (twoOptVisit m) st

/-- The `while improved:` loop of `_two_opt_improve`.  The source repeats
passes until a pass makes no improvement; since each improvement strictly
decreases the best distance the source loop terminates, and the embedding
makes the number of remaining passes an explicit fuel argument.  Every
property proved for all fuel values in particular covers the source's
fixpoint. -/
def twoOptLoop (m : List (List ℚ)) (n : ℕ) : ℕ → TwoOptState → TwoOptState
  | 0, st => st
  | fuel + 1, st =>
    if st.improved then
      twoOptLoop m n fuel (twoOptPass m n { st with improved := false })
    else st

/-- `RouteOptimizer._two_opt_improve`, with the pass count as fuel. -/
def twoOptImprove (fuel : ℕ) (m : List (List ℚ)) (tour : List ℕ) : List ℕ :=
  (twoOptLoop m tour.length fuel ⟨tour, tour, tourDistance m tour, true⟩).bestTour

/-- `list.append` guarded by `if x not in l`, as used by
`_enforce_pickup_delivery_order`. -/
def appendIfAbsent (l : List ℕ) (x : ℕ) : List ℕ := if x ∈ l then l else l ++ [x]

/-- `RouteOptimizer._enforce_pickup_delivery_order`.  Pickup node of load `i`
is `2*i`, its delivery node `2*i+1`; when both occur in the sequence they are
appended pickup-first (the source's two order branches have identical
bodies), then any remaining sequence entries are appended in order. -/
def enforcePickupDeliveryOrder (sequence : List ℕ) (numLoads : ℕ) : List ℕ :=
  let corrected := (List.range numLoads).foldl
    (fun acc i =>
      if 2 * i ∈ sequence ∧ 2 * i + 1 ∈ sequence then
        appendIfAbsent (appendIfAbsent acc (2 * i)) (2 * i + 1)
      else acc) []
  sequence.foldl appendIfAbsent corrected

/-- `RouteOptimizer._get_traffic_factor` (ignores the endpoints and averages
all delay factors; `1.0` without traffic data). -/
def getTrafficFactor (_start _stop : Location) (traffic : List TrafficCondition) : ℚ :=
  if traffic.isEmpty then 1.0
  else (traffic.map TrafficCondition.delay_factor).sum / traffic.length

/-- `RouteOptimizer._calculate_fuel_consumption`. -/
def calculateFuelConsumption (distance_km : ℚ) (loads : List Load) : ℚ :=
  let total_weight := (loads.map Load.weight_kg).sum
  distance_km * (0.3 + 0.00002 * total_weight)

/-- `RouteOptimizer._calculate_confidence_score`. -/
def calculateConfidenceScore (segments : List RouteSegment)
    (traffic : List TrafficCondition) : ℚ :=
  let base := (0.9 : ℚ)
  let base := if ¬ traffic.isEmpty then
      base - ((traffic.filter (fun tc => 1.5 < tc.delay_factor)).length : ℚ) * 0.1
    else base
  let total := (segments.map RouteSegment.distance_km).sum
  let base := if 200 < total then base - (total - 200) / 1000 * 0.1 else base
  max 0.3 (min 1.0 base)

/-- `RouteOptimizer._calculate_truck_load_score` (lower is better);
`none` models the `float('inf')` returned when the truck has no location. -/
def calculateTruckLoadScore (dist : Location → Location → ℚ)
    (truck : Truck) (load : Load) (traffic : List TrafficCondition) : Option ℚ :=
  match truck.current_location with
  | none => none
  | some loc =>
    let distance_to_pickup := dist loc load.pickup_location
    let delivery_distance := dist load.pickup_location load.delivery_location
    let traffic_factor :=
      if traffic.isEmpty then 1.0
      else (traffic.map TrafficCondition.delay_factor).sum / traffic.length
    let total_distance := distance_to_pickup + delivery_distance
    let total_time_hours := total_distance / 60 * traffic_factor
    let fuel_cost := total_distance * 0.3 * 1.50
    let time_cost := total_time_hours * (25.0 + 10.0)
    let priority_factor : ℚ :=
      match load.priority with
      | .low => 1.0
      | .normal => 0.9
      | .high => 0.7
      | .urgent => 0.5
      | .critical => 0.3
    let fuel_factor : ℚ := if 30 < truck.fuel_level_percent then 1.0 else 1.5
    some ((fuel_cost + time_cost) * priority_factor * fuel_factor)

/-- `RouteOptimizer.find_best_truck_for_load`: skips trucks with
insufficient capacity, keeps the first truck of strictly minimal score
(`score < best_score`; a `none` score models `inf` and is never smaller).
`none` is the source's `(None, float('inf'))`. -/
def findBestTruckForLoad (dist : Location → Location → ℚ) (load : Load)
    (available_trucks : List Truck) (traffic : List TrafficCondition) :
    Option (Truck × ℚ) :=
  available_trucks.foldl
    (fun best truck =>
      if truck.capacity_kg < load.weight_kg then best
      else
        match calculateTruckLoadScore dist truck load traffic with
        | none => best
        | some score =>
          match best with
          | none => some (truck, score)
          | some (_, bestScore) =>
            if score < bestScore then some (truck, score) else best)
    none

/-- `RouteOptimizer._empty_route`. -/
def emptyRoute : OptimizedRoute := ⟨[], 0.0, 0.0, 0.0, 0.0, 1.0⟩

/-- Accumulator for the segment-building loop of `optimize_route`. -/
structure SegState where
  segments : List RouteSegment
  total_distance : ℚ
  total_time : ℚ
  current_location : Location
  current_idx : ℕ

/-- `RouteOptimizer.optimize_route`.  `Except.error` models an uncaught
Python exception.  The branch for more than two pickup/delivery nodes
evaluates `distance_matrix[1:, 1:]`, which indexes a plain Python list with
the tuple `(slice(1, None), slice(1, None))` and therefore raises
`TypeError` before `_nearest_neighbor_tsp` ever runs; the same expression
also guards the 2-opt call on the short branch, where `len(sequence) > 3`
can never hold. -/
def optimizeRoute (dist : Location → Location → ℚ) (truck : Truck)
    (loads : List Load) (traffic : List TrafficCondition) (_goal : String) :
    Except String OptimizedRoute :=
  match loads with
  | [] => .ok emptyRoute
  | l₀ :: _ =>
    let locations := loads.flatMap fun l => [l.pickup_location, l.delivery_location]
    let start_location :=
      match truck.current_location with
      | some s => s
      | none => l₀.pickup_location
    let dm := calculateDistanceMatrix dist (start_location :: locations)
    let dm := if ¬ traffic.isEmpty then applyTrafficFactors dm traffic else dm
    if locations.length ≤ 2 then
      let sequence := List.range locations.length
      if 3 < sequence.length then
        .error "TypeError: list indices must be integers or slices, not tuple"
      else
        let sequence := enforcePickupDeliveryOrder sequence loads.length
        let final := sequence.foldl
          (fun (st : SegState) next_idx =>
            let next_location := locations.getD next_idx start_location
            let distance := mGet dm st.current_idx (next_idx + 1)
            let traffic_factor := getTrafficFactor st.current_location next_location traffic
            let time_minutes := distance / (60.0 / traffic_factor) * 60
            { segments := st.segments ++
                [⟨st.current_location, next_location, distance, time_minutes, traffic_factor⟩]
              total_distance := st.total_distance + distance
              total_time := st.total_time + time_minutes
              current_location := next_location
              current_idx := next_idx + 1 })
          ⟨[], 0, 0, start_location, 0⟩
        let fuel_consumption := calculateFuelConsumption final.total_distance loads
        let fuel_cost := fuel_consumption * 1.50
        let time_cost := final.total_time / 60 * (25.0 + 10.0)
        let total_cost := fuel_cost + time_cost
        let confidence := calculateConfidenceScore final.segments traffic
        .ok ⟨final.segments, round2 final.total_distance, round1 final.total_time,
             round2 total_cost, round2 fuel_consumption, confidence⟩
    else
      .error "TypeError: list indices must be integers or slices, not tuple"

/-! ## Load assignment engine (`src/algorithms/load_assignment.py`) -/

/-- `Assignment` dataclass. -/
structure Assignment where
  truck_id : String
  load_id : String
  estimated_cost : ℚ
  estimated_time_minutes : ℚ
  pickup_eta : ℚ
  delivery_eta : ℚ
  confidence_score : ℚ
  priority_score : ℚ
deriving DecidableEq, Repr

/-- `AssignmentSolution` dataclass. -/
structure AssignmentSolution where
  assignments : List Assignment
  total_cost : ℚ
  unassigned_loads : List String
  utilization_rate : ℚ
  on_time_probability : ℚ
deriving DecidableEq, Repr

/-- `LoadAssignmentEngine._priority_to_numeric` (all enum members are keyed,
so the dict default `2.0` is unreachable). -/
def priorityToNumeric : LoadPriority → ℚ
  | .low => 1.0
  | .normal => 2.0
  | .high => 3.0
  | .urgent => 4.0
  | .critical => 5.0

/-- Priority multiplier of `_calculate_assignment_cost`. -/
def priorityMultiplier : LoadPriority → ℚ
  | .low => 1.2
  | .normal => 1.0
  | .high => 0.8
  | .urgent => 0.6
  | .critical => 0.4

/-- `LoadAssignmentEngine._estimate_delivery_time` (conservative 45 km/h;
4-hour default without a truck location). -/
def estimateDeliveryTime (dist : Location → Location → ℚ) (now : ℚ)
    (truck : Truck) (load : Load) : ℚ :=
  match truck.current_location with
  | none => now + 4
  | some loc =>
    let total_distance := dist loc load.pickup_location +
      dist load.pickup_location load.delivery_location
    now + total_distance / 45.0

/-- `LoadAssignmentEngine._check_assignment_constraints`: capacity, fuel
budget (only when the truck has a location) and delivery deadline (only when
set). -/
def checkAssignmentConstraints (dist : Location → Location → ℚ) (now : ℚ)
    (truck : Truck) (load : Load) : Bool :=
  if truck.capacity_kg < load.weight_kg then false
  else
    let fuelFail : Bool :=
      match truck.current_location with
      | some loc =>
        let total_distance := dist loc load.pickup_location +
          dist load.pickup_location load.delivery_location
        let fuel_needed := total_distance * 0.3
        let fuel_available := 200 * (truck.fuel_level_percent / 100)
        decide (fuel_available * 0.8 < fuel_needed)
      | none => false
    if fuelFail then false
    else
      match load.delivery_deadline with
      | some deadline => !(decide (deadline < estimateDeliveryTime dist now truck load))
      | none => true

/-- `LoadAssignmentEngine._calculate_assignment_cost`; `none` models the
`float('inf')` returned for a truck without a location. -/
def calculateAssignmentCost (dist : Location → Location → ℚ)
    (truck : Truck) (load : Load) : Option ℚ :=
  match truck.current_location with
  | none => none
  | some loc =>
    let total_distance := dist loc load.pickup_location +
      dist load.pickup_location load.delivery_location
    let total_time_hours := total_distance / 50.0
    let fuel_cost := total_distance * 0.3 * 1.50
    let time_cost := total_time_hours * (25.0 + 10.0)
    some ((fuel_cost + time_cost) * priorityMultiplier load.priority)

/-- `LoadAssignmentEngine._calculate_assignment_confidence`. -/
def calculateAssignmentConfidence (dist : Location → Location → ℚ)
    (truck : Truck) (load : Load) : ℚ :=
  let base := (0.8 : ℚ)
  let base :=
    if truck.fuel_level_percent < 30 then base - 0.2
    else if 70 < truck.fuel_level_percent then base + 0.1
    else base
  let base :=
    match truck.current_location with
    | some loc => if 100 < dist loc load.pickup_location then base - 0.1 else base
    | none => base
  let base :=
    if load.priority = .critical ∨ load.priority = .urgent then base + 0.1 else base
  max 0.3 (min 1.0 base)

/-- `LoadAssignmentEngine._create_assignment`. -/
def createAssignment (dist : Location → Location → ℚ) (now : ℚ)
    (truck : Truck) (load : Load) (cost : ℚ) : Assignment :=
  let pickup_eta :=
    match truck.current_location with
    | some loc => now + dist loc load.pickup_location / 50.0
    | none => now + 1
  let delivery_eta :=
    pickup_eta + dist load.pickup_location load.delivery_location / 50.0
  { truck_id := truck.id
    load_id := load.id
    estimated_cost := cost
    estimated_time_minutes := (delivery_eta - now) * 60
    pickup_eta := pickup_eta
    delivery_eta := delivery_eta
    confidence_score := calculateAssignmentConfidence dist truck load
    priority_score := priorityToNumeric load.priority }

/-- `LoadAssignmentEngine._calculate_on_time_probability`. -/
def calculateOnTimeProbability (assignments : List Assignment) : ℚ :=
  if assignments.isEmpty then 1.0
  else (assignments.map Assignment.confidence_score).sum / assignments.length

/-- One cell of `_build_cost_matrix`: the assignment cost when the
constraints hold, `none` (`inf`) otherwise. -/
def cellCost (dist : Location → Location → ℚ) (now : ℚ)
    (truck : Truck) (load : Load) : Option ℚ :=
  if checkAssignmentConstraints dist now truck load then
    calculateAssignmentCost dist truck load
  else none

/-- `LoadAssignmentEngine._build_cost_matrix`. -/
def buildCostMatrix (dist : Location → Location → ℚ) (now : ℚ)
    (trucks : List Truck) (loads : List Load) : List (List (Option ℚ)) :=
  trucks.map fun t => loads.map fun l => cellCost dist now t l

/-- The `(cost, i, j, truck, load)` tuples pushed onto the heap in
`_optimal_assignment` (one per finite cost-matrix cell, in iteration
order). -/
def optimalPairs (dist : Location → Location → ℚ) (now : ℚ)
    (trucks : List Truck) (loads : List Load) :
    List (ℚ × ℕ × ℕ × Truck × Load) :=
  trucks.enum.flatMap fun p =>
    loads.enum.filterMap fun q =>
      (cellCost dist now p.2 q.2).map fun c => (c, p.1, q.1, p.2, q.2)

/-- Heap order of the `(cost, i, j, truck, load)` tuples: `heapq` pops the
lexicographically smallest tuple; distinct pairs always differ in `(i, j)`,
so the comparison never reaches the truck/load components. -/
def heapLe (a b : ℚ × ℕ × ℕ × Truck × Load) : Bool :=
  decide (a.1 < b.1 ∨ (a.1 = b.1 ∧ (a.2.1 < b.2.1 ∨
    (a.2.1 = b.2.1 ∧ a.2.2.1 ≤ b.2.2.1))))

/-- Loop state of `_optimal_assignment` (`assigned_loads`/`assigned_trucks`
are sets of ids; they are modelled as duplicate-free lists grown at the
back, so `len` is the list length). -/
structure OptState where
  assignments : List Assignment
  total_cost : ℚ
  assigned_loads : List String
  assigned_trucks : List String
deriving Repr

/-- The heap-pop loop of `_optimal_assignment`: pops in sorted order while
uncommitted loads remain, committing a pair when neither id is taken and the
constraints hold. -/
def optLoop (dist : Location → Location → ℚ) (now : ℚ) (numLoads : ℕ) :
    List (ℚ × ℕ × ℕ × Truck × Load) → OptState → OptState
  | [], st => st
  | (c, _, _, t, l) :: rest, st =>
    if st.assigned_loads.length < numLoads then
      let st :=
        if t.id ∉ st.assigned_trucks ∧ l.id ∉ st.assigned_loads then
          if checkAssignmentConstraints dist now t l then
            { assignments := st.assignments ++ [createAssignment dist now t l c]
              total_cost := st.total_cost + c
              assigned_loads := st.assigned_loads ++ [l.id]
              assigned_trucks := st.assigned_trucks ++ [t.id] }
          else st
        else st
      optLoop dist now numLoads rest st
    else st

/-- `LoadAssignmentEngine._optimal_assignment`. -/
def optimalAssignment (dist : Location → Location → ℚ) (now : ℚ)
    (trucks : List Truck) (loads : List Load) : AssignmentSolution :=
  let pairs := pySortBy heapLe (optimalPairs dist now trucks loads)
  let st := optLoop dist now loads.length pairs ⟨[], 0, [], []⟩
  { assignments := st.assignments
    total_cost := st.total_cost
    unassigned_loads := (loads.filter fun l => l.id ∉ st.assigned_loads).map Load.id
    utilization_rate :=
      if trucks.isEmpty then 0.0 else (st.assigned_trucks.length : ℚ) / trucks.length
    on_time_probability := calculateOnTimeProbability st.assignments }

/-- Sort key comparison of `_greedy_assignment`'s
`sorted(loads, key=lambda l: (priority_numeric, deadline or datetime.max))`;
a missing deadline compares as `datetime.max`, later than every real one. -/
def deadlineLe : Option ℚ → Option ℚ → Bool
  | none, none => true
  | none, some _ => false
  | some _, none => true
  | some x, some y => decide (x ≤ y)

/-- Lexicographic `≤` on the greedy sort key. -/
def greedyKeyLe (a b : Load) : Bool :=
  if priorityToNumeric a.priority < priorityToNumeric b.priority then true
  else if priorityToNumeric b.priority < priorityToNumeric a.priority then false
  else deadlineLe a.delivery_deadline b.delivery_deadline

/-- Inner truck scan of `_greedy_assignment`: first feasible truck of
strictly minimal assignment cost (`cost < best_cost`; an infinite cost is
never smaller). -/
def greedyPick (dist : Location → Location → ℚ) (now : ℚ)
    (load : Load) (available : List Truck) : Option (Truck × ℚ) :=
  available.foldl
    (fun best truck =>
      if checkAssignmentConstraints dist now truck load then
        match calculateAssignmentCost dist truck load with
        | none => best
        | some c =>
          match best with
          | none => some (truck, c)
          | some (_, bc) => if c < bc then some (truck, c) else best
      else best)
    none

/-- Shared loop state of `_greedy_assignment` and
`_priority_first_assignment`. -/
structure CState where
  assignments : List Assignment
  total_cost : ℚ
  available : List Truck
deriving Repr

/-- One load of the greedy/priority-first loops: pick a truck via `pick`,
commit the assignment and remove the truck from the available list
(`available_trucks.remove(best_truck)`); skip the load when no truck
qualifies. -/
def commitStep (dist : Location → Location → ℚ) (now : ℚ)
    (pick : Load → List Truck → Option (Truck × ℚ))
    (st : CState) (load : Load) : CState :=
  match pick load st.available with
  | some (t, c) =>
    { assignments := st.assignments ++ [createAssignment dist now t load c]
      total_cost := st.total_cost + c
      available := st.available.erase t }
  | none => st

/-- Fold of `commitStep` over the loads in processing order. -/
def commitFold (dist : Location → Location → ℚ) (now : ℚ)
    (pick : Load → List Truck → Option (Truck × ℚ))
    (loadsOrder : List Load) (trucks : List Truck) : CState :=
  loadsOrder.foldl (commitStep dist now pick) ⟨[], 0, trucks⟩

/-- Solution record shared by the tails of `_greedy_assignment` and
`_priority_first_assignment` (unassigned = loads with no assignment naming
their id; utilisation = consumed trucks / all trucks). -/
def commitSolution (loads : List Load) (trucks : List Truck) (st : CState) :
    AssignmentSolution :=
  { assignments := st.assignments
    total_cost := st.total_cost
    unassigned_loads :=
      (loads.filter fun l => ¬ st.assignments.any fun a => a.load_id == l.id).map Load.id
    utilization_rate :=
      if trucks.isEmpty then 0.0
      else ((trucks.length - st.available.length : ℕ) : ℚ) / trucks.length
    on_time_probability := calculateOnTimeProbability st.assignments }

/-- `LoadAssignmentEngine._greedy_assignment`. -/
def greedyAssignment (dist : Location → Location → ℚ) (now : ℚ)
    (trucks : List Truck) (loads : List Load) : AssignmentSolution :=
  let sorted_loads := pySortBy greedyKeyLe loads
  commitSolution loads trucks
    (commitFold dist now (greedyPick dist now) sorted_loads trucks)

/-- Predicate of `_priority_first_assignment`'s partition:
`l.priority in [CRITICAL, URGENT]`. -/
def isCriticalOrUrgent (l : Load) : Bool :=
  l.priority = .critical ∨ l.priority = .urgent

/-- `LoadAssignmentEngine._priority_first_assignment`: the urgent/critical
partition (sorted by deadline) is served before the rest, each load taking
the truck chosen by `find_best_truck_for_load` (called without traffic
data). -/
def priorityFirstAssignment (dist : Location → Location → ℚ) (now : ℚ)
    (trucks : List Truck) (loads : List Load) : AssignmentSolution :=
  let critical_loads := loads.filter isCriticalOrUrgent
  let normal_loads := loads.filter fun l => ¬ isCriticalOrUrgent l
  let ordered :=
    pySortBy (fun a b => deadlineLe a.delivery_deadline b.delivery_deadline)
      critical_loads ++ normal_loads
  commitSolution loads trucks
    (commitFold dist now (fun l avail => findBestTruckForLoad dist l avail [])
      ordered trucks)

/-- Eligibility filter of `assign_loads_to_trucks`: status `idle` or
`en_route` and a known location. -/
def isAvailableTruck (t : Truck) : Bool :=
  (t.status = .idle ∨ t.status = .en_route) ∧ t.current_location.isSome

/-- `LoadAssignmentEngine.assign_loads_to_trucks`: filters eligible trucks
and unassigned loads, short-circuits to the empty solution when either
filter is empty, dispatches on the strategy string and raises `ValueError`
(modelled as `Except.error`) on an unknown strategy. -/
def assignLoadsToTrucks (dist : Location → Location → ℚ) (now : ℚ)
    (trucks : List Truck) (loads : List Load) (strategy : String) :
    Except String AssignmentSolution :=
  let available_trucks := trucks.filter isAvailableTruck
  let unassigned_loads := loads.filter fun l => ¬ pyStrOptTruthy l.assigned_truck_id
  if available_trucks.isEmpty ∨ unassigned_loads.isEmpty then
    .ok ⟨[], 0.0, unassigned_loads.map Load.id, 0.0, 1.0⟩
  else if strategy = "optimal" then
    .ok (optimalAssignment dist now available_trucks unassigned_loads)
  else if strategy = "greedy" then
    .ok (greedyAssignment dist now available_trucks unassigned_loads)
  else if strategy = "priority_first" then
    .ok (priorityFirstAssignment dist now available_trucks unassigned_loads)
  else
    .error ("Unknown strategy: " ++ strategy)

/-! ## Decision evaluator (`src/decision/evaluator.py`) -/

/-- `Scenario` (`src/models.py`), reduced to the fields the embedded code
reads.  Each entry of the Python `actions` list is a dict; the only key any
embedded code path reads is `"type"` (`_determine_action_type`), so an
action is represented by the value of that key (`action.get("type",
"wait")`). -/
structure Scenario where
  id : String
  name : String
  actions : List String
  estimated_cost : ℚ
  estimated_time_minutes : ℚ
  estimated_fuel_liters : ℚ
  reliability_score : ℚ
deriving DecidableEq, Repr

/-- `Decision` (`src/models.py`), reduced to the fields the embedded code
reads (parameters, rationale text, verification flags and timestamp are
never read back). -/
structure Decision where
  id : String
  scenario_id : String
  action_type : ActionType
  score : ℚ
  confidence : ℚ
deriving DecidableEq, Repr

/-- `DecisionResult` (`src/models.py`); the free-text `decision_trace` is
elided. -/
structure DecisionResult where
  selected_decision : Option Decision
  alternatives : List Decision
  requires_human_approval : Bool
deriving DecidableEq, Repr

/-- A `Dict[str, float]` of per-criterion scores; `none` models an absent
key, read back through `.get(key, default)`. -/
structure ScoreDict where
  cost_score : Option ℚ
  time_score : Option ℚ
  fuel_score : Option ℚ
  reliability : Option ℚ
  overall : Option ℚ
deriving DecidableEq, Repr

/-- The `comparison_matrix : Dict[str, Dict[str, float]]`, as an association
list keyed by scenario id. -/
abbrev ComparisonMatrix : Type := List (String × ScoreDict)

/-- `DecisionEvaluator._compute_scores`. -/
def computeScores (s : Scenario) : ScoreDict :=
  let cost_score := 1 / (1 + s.estimated_cost / 100)
  let time_score := 1 / (1 + s.estimated_time_minutes / 60)
  let fuel_score := 1 / (1 + s.estimated_fuel_liters / 10)
  { cost_score := some cost_score
    time_score := some time_score
    fuel_score := some fuel_score
    reliability := some s.reliability_score
    overall := some ((cost_score + time_score + fuel_score + s.reliability_score) / 4) }

/-- The evaluator's configuration: the resolved
`self.confidence_threshold` (constructor argument, defaulting to
`settings.DECISION_CONFIDENCE_THRESHOLD = 0.7`) and the four scoring
weights. -/
structure EvaluatorConfig where
  confidence_threshold : ℚ
  wCost : ℚ
  wTime : ℚ
  wRel : ℚ
  wFuel : ℚ
deriving Repr

/-- The default weights `{cost: 0.25, time: 0.35, reliability: 0.30,
fuel: 0.10}` with the default threshold `0.7`. -/
def defaultEvaluatorConfig : EvaluatorConfig := ⟨0.7, 0.25, 0.35, 0.30, 0.10⟩

/-- Score lookup of `evaluate_scenarios`: the comparison-matrix entry when
the matrix is truthy (non-empty) and has the scenario id, otherwise
`_compute_scores`. -/
def scenarioScores (cm : ComparisonMatrix) (s : Scenario) : ScoreDict :=
  match cm with
  | [] => computeScores s
  | _ =>
    match List.lookup s.id (cm : List (String × ScoreDict)) with
    | some sc => sc
    | none => computeScores s

/-- The weighted score of `evaluate_scenarios` (each `.get` default is the
source's). -/
def weightedScore (cfg : EvaluatorConfig) (cm : ComparisonMatrix) (s : Scenario) : ℚ :=
  let sc := scenarioScores cm s
  cfg.wCost * sc.cost_score.getD 0.5 +
  cfg.wTime * sc.time_score.getD 0.5 +
  cfg.wRel * (sc.reliability.getD s.reliability_score) +
  cfg.wFuel * sc.fuel_score.getD 0.5

/-- `DecisionEvaluator._determine_action_type`: the `"type"` of the first
action, defaulting to `WAIT` when there is no action or the string is not an
`ActionType` value. -/
def determineActionType (s : Scenario) : ActionType :=
  match s.actions with
  | [] => .wait
  | a :: _ => (actionTypeOfString a).getD .wait

/-- The `Decision` built for one scenario inside `evaluate_scenarios`
(`score = round(ws, 3)`, `confidence = round(ws * reliability, 3)` with the
unrounded weighted score). -/
def mkDecision (cfg : EvaluatorConfig) (cm : ComparisonMatrix) (s : Scenario) : Decision :=
  let ws := weightedScore cfg cm s
  { id := "DEC-" ++ s.id
    scenario_id := s.id
    action_type := determineActionType s
    score := round3 ws
    confidence := round3 (ws * s.reliability_score) }

/-- `DecisionEvaluator.evaluate_scenarios`: empty input short-circuits to
`requires_human_approval = True`; otherwise decisions are sorted descending
by score (stable), the head is selected, and human approval is required when
the confidence is below the threshold or the action is reassign/escalate
with confidence below `0.85`. -/
def evaluateScenarios (cfg : EvaluatorConfig) (scenarios : List Scenario)
    (cm : ComparisonMatrix) : DecisionResult :=
  if scenarios.isEmpty then
    { selected_decision := none, alternatives := [], requires_human_approval := true }
  else
    let decisions := scenarios.map (mkDecision cfg cm)
    let sorted := pySortBy (fun a b => decide (b.score ≤ a.score)) decisions
    let best := sorted.head?
    let requires_human :=
      match best with
      | none => false
      | some b =>
        (decide (b.confidence < cfg.confidence_threshold)) ||
        (((b.action_type == ActionType.reassign) || (b.action_type == ActionType.escalate)) &&
          decide (b.confidence < 0.85))
    { selected_decision := best
      alternatives := sorted.tail
      requires_human_approval := requires_human }

/-! ## Scenario generator (`src/planning/scenario_generator.py`)

The generator's constructor takes the `SimulationEngine` as an injectable
dependency; the engine's three simulation calls are correspondingly
modelled as an abstract record of functions, of which the generator reads
exactly the dict keys listed in the result structures below. -/

/-- `Issue` (`src/models.py`), reduced to the fields the embedded code
reads. -/
structure Issue where
  id : String
  issue_type : String
  severity : String
  affected_truck_ids : List String
  affected_load_ids : List String
deriving DecidableEq, Repr

/-- Result of `SimulationEngine.simulate_wait`, reduced to the one key read
(`wait_sim['wait_cost']`). -/
structure WaitSim where
  wait_cost : ℚ
deriving Repr

/-- One element of `SimulationEngine.simulate_reroute`'s result list,
reduced to the keys read. -/
structure RerouteSim where
  route_name : String
  total_cost : ℚ
  time_minutes : ℚ
  fuel_liters : ℚ
deriving Repr

/-- Result of `SimulationEngine.simulate_reassignment`, reduced to the keys
read. -/
structure ReassignSim where
  total_cost : ℚ
  total_time_minutes : ℚ
  new_truck_distance_km : ℚ
deriving Repr

/-- An entry of the `alt_routes` literal passed to `simulate_reroute`. -/
structure AltRoute where
  name : String
  distance_km : ℚ
  traffic_factor : ℚ
deriving Repr

/-- The injected `SimulationEngine` interface, as consumed by
`ScenarioGenerator`. -/
structure SimEngine where
  simulate_wait : ℚ → Option Truck → WaitSim
  simulate_reroute :
    Truck → Location → Location → List TrafficCondition → List AltRoute → List RerouteSim
  simulate_reassignment : Truck → Truck → Load → ReassignSim

/-- `ScenarioGenerator._get_affected_truck`. -/
def getAffectedTruck (issue : Issue) (trucks : List Truck) : Option Truck :=
  match issue.affected_truck_ids with
  | [] => none
  | tid :: _ => trucks.find? fun t => t.id == tid

/-- `ScenarioGenerator._get_affected_load`. -/
def getAffectedLoad (issue : Issue) (loads : List Load) : Option Load :=
  match issue.affected_load_ids with
  | [] => none
  | lid :: _ => loads.find? fun l => l.id == lid

/-- `ScenarioGenerator._generate_stuck_truck_scenarios`. -/
def generateStuckTruckScenarios (eng : SimEngine) (issue : Issue)
    (truck : Option Truck) (load : Option Load) (trucks : List Truck)
    (traffic : List TrafficCondition) : List Scenario :=
  let wait_sim := eng.simulate_wait 30 truck
  let waitScenario : Scenario :=
    { id := "SCEN-" ++ issue.id ++ "-WAIT"
      name := "Wait for Conditions to Improve"
      actions := ["wait"]
      estimated_cost := wait_sim.wait_cost + 50
      estimated_time_minutes := 30 + 45
      estimated_fuel_liters := 2.0
      reliability_score := 0.7 }
  let rerouteScenarios : List Scenario :=
    match truck with
    | some t =>
      match t.current_location with
      | some loc =>
        let destination :=
          match load with
          | some l => l.delivery_location
          | none => ⟨loc.latitude + 0.1, loc.longitude + 0.1⟩
        let alt_routes : List AltRoute :=
          [⟨"Route 9A North", 25, 1.1⟩, ⟨"Local Roads", 30, 1.2⟩]
        let sims := eng.simulate_reroute t loc destination traffic alt_routes
        (sims.drop 1).enum.map fun p =>
          { id := "SCEN-" ++ issue.id ++ "-REROUTE-" ++ toString (p.1 + 1)
            name := "Reroute via " ++ p.2.route_name
            actions := ["reroute"]
            estimated_cost := p.2.total_cost
            estimated_time_minutes := p.2.time_minutes
            estimated_fuel_liters := p.2.fuel_liters
            reliability_score := 0.85 }
      | none => []
    | none => []
  let available_trucks := trucks.filter fun t2 =>
    (match truck with
     | some t => t2.id != t.id
     | none => true) &&
    (t2.status == .idle || t2.status == .en_route)
  let reassignScenarios : List Scenario :=
    match available_trucks, load, truck with
    | best_truck :: _, some l, some t =>
      let sim := eng.simulate_reassignment t best_truck l
      [{ id := "SCEN-" ++ issue.id ++ "-REASSIGN"
         name := "Reassign to " ++ best_truck.id
         actions := ["reassign", "dispatch"]
         estimated_cost := sim.total_cost
         estimated_time_minutes := sim.total_time_minutes
         estimated_fuel_liters := sim.new_truck_distance_km * 0.3
         reliability_score := 0.9 }]
    | _, _, _ => []
  [waitScenario] ++ rerouteScenarios ++ reassignScenarios

/-- `ScenarioGenerator._generate_delay_scenarios`. -/
def generateDelayScenarios (issue : Issue) : List Scenario :=
  [{ id := "SCEN-" ++ issue.id ++ "-CONTINUE"
     name := "Continue and Notify Customer"
     actions := ["notify"]
     estimated_cost := 10
     estimated_time_minutes := 60
     estimated_fuel_liters := 3.0
     reliability_score := 0.6 },
   { id := "SCEN-" ++ issue.id ++ "-WAIT"
     name := "Wait for Traffic Peak to Pass"
     actions := ["wait"]
     estimated_cost := 45
     estimated_time_minutes := 75
     estimated_fuel_liters := 2.5
     reliability_score := 0.75 }]

/-- `ScenarioGenerator._generate_capacity_scenarios`. -/
def generateCapacityScenarios (issue : Issue) (trucks : List Truck)
    (loads : List Load) : List Scenario :=
  let unassigned_loads := loads.filter fun l =>
    l.id ∈ issue.affected_load_ids ∨ ¬ pyStrOptTruthy l.assigned_truck_id
  let available_trucks := trucks.filter fun t => t.status = .idle
  let dispatchScenarios : List Scenario :=
    match available_trucks, unassigned_loads with
    | t :: _, l :: _ =>
      [{ id := "SCEN-" ++ issue.id ++ "-DISPATCH"
         name := "Dispatch " ++ t.id ++ " for " ++ l.id
         actions := ["dispatch"]
         estimated_cost := 150
         estimated_time_minutes := 90
         estimated_fuel_liters := 8.0
         reliability_score := 0.95 }]
    | _, _ => []
  let escalateScenarios : List Scenario :=
    if available_trucks.isEmpty then
      [{ id := "SCEN-" ++ issue.id ++ "-ESCALATE"
         name := "Escalate to Dispatch Manager"
         actions := ["escalate"]
         estimated_cost := 0
         estimated_time_minutes := 15
         estimated_fuel_liters := 0
         reliability_score := 0.8 }]
    else []
  dispatchScenarios ++ escalateScenarios

/-- `ScenarioGenerator._generate_generic_scenarios`. -/
def generateGenericScenarios (issue : Issue) : List Scenario :=
  [{ id := "SCEN-" ++ issue.id ++ "-OBSERVE"
     name := "Monitor and Reassess"
     actions := ["wait"]
     estimated_cost := 20
     estimated_time_minutes := 15
     estimated_fuel_liters := 0
     reliability_score := 0.5 },
   { id := "SCEN-" ++ issue.id ++ "-ESCALATE"
     name := "Escalate to Human Operator"
     actions := ["escalate"]
     estimated_cost := 0
     estimated_time_minutes := 30
     estimated_fuel_liters := 0
     reliability_score := 0.9 }]

/-- The ranking score of `_rank_scenarios.score_scenario`. -/
def scoreScenario (s : Scenario) : ℚ :=
  let time_score := 1 / (1 + s.estimated_time_minutes / 60)
  let cost_score := 1 / (1 + s.estimated_cost / 100)
  0.3 * time_score + 0.2 * cost_score + 0.5 * s.reliability_score

/-- `ScenarioGenerator._rank_scenarios`:
`sorted(scenarios, key=score_scenario, reverse=True)` (stable). -/
def rankScenarios (scenarios : List Scenario) : List Scenario :=
  pySortBy (fun a b => decide (scoreScenario b ≤ scoreScenario a)) scenarios

/-- `ScenarioGenerator.generate_scenarios`: dispatch on the issue type,
truncate to `max_scenarios` (default 5 at every caller), then rank. -/
def generateScenarios (eng : SimEngine) (issue : Issue) (trucks : List Truck)
    (loads : List Load) (traffic : List TrafficCondition)
    (max_scenarios : ℕ) : List Scenario :=
  let scenarios :=
    if issue.issue_type = "stuck" then
      generateStuckTruckScenarios eng issue (getAffectedTruck issue trucks)
        (getAffectedLoad issue loads) trucks traffic
    else if issue.issue_type = "delay" then
      generateDelayScenarios issue
    else if issue.issue_type = "traffic" then
      generateDelayScenarios issue
    else if issue.issue_type = "capacity_mismatch" then
      generateCapacityScenarios issue trucks loads
    else
      generateGenericScenarios issue
  rankScenarios (scenarios.take max_scenarios)

/-! ## Control loop (`src/orchestration/graph.py` and the phase nodes)

`AgentState` is the LangGraph state dict; it is modelled with typed fields
(the serialisation of the entities to dicts and back, a bijection on the
modelled fields, is elided).  The observation and reasoning phases are the
spec's external collaborators; the claims about the loop condition on their
output (`current_issues`), so the embedding covers the PLAN → DECIDE → ACT →
FEEDBACK chain and the `should_continue` transition evaluated at FEEDBACK.
`create_planning_node` takes its `SimulationEngine`/`ScenarioGenerator` as
injected dependencies; the embedding accordingly takes the `SimEngine` and
the `compare_scenarios` function as parameters. -/

/-- `ControlLoopPhase` enum. -/
inductive ControlLoopPhase where
  | observe | reason | plan | decide | act | feedback
deriving DecidableEq, Repr

/-- `PlanningResult` (`src/models.py`), reduced to the fields the embedded
code reads. -/
structure PlanningResult where
  scenarios : List Scenario
  comparison_matrix : ComparisonMatrix
  recommended_scenario_id : Option String

/-- One serialized action result, reduced to the fields feedback reads. -/
structure ActionRecord where
  decision_id : String
  success : Bool
deriving DecidableEq, Repr

/-- The LangGraph `AgentState`, reduced to the fields the embedded
PLAN/DECIDE/ACT/FEEDBACK chain and `should_continue` read or write. -/
structure AgentState where
  current_phase : ControlLoopPhase
  trucks : List Truck
  loads : List Load
  traffic_conditions : List TrafficCondition
  current_issues : List Issue
  planning_result : Option PlanningResult
  scenarios : List Scenario
  selected_decision : Option Decision
  decision_result : Option DecisionResult
  action_results : List ActionRecord
  continue_loop : Bool
  requires_human_intervention : Bool
  error_message : Option String
  total_cycles : ℕ

/-- The `recommended_scenario_id` scan of `planning_node` (strictly best
`overall` score, starting from `0`, first winner kept; a comparison entry
always carries `overall`, read here with default `0`). -/
def bestOverall (cm : ComparisonMatrix) : Option String :=
  ((cm : List (String × ScoreDict)).foldl
    (fun (acc : Option String × ℚ) p =>
      if acc.2 < p.2.overall.getD 0 then (some p.1, p.2.overall.getD 0) else acc)
    (none, 0)).1

/-- `planning_node` (`src/planning/planning_node.py`), success path: one
`generate_scenarios` call per issue (callers use the default
`max_scenarios = 5`), the per-issue comparison matrices merged in order,
scenarios concatenated.  Issues whose generation returns no scenarios
contribute nothing. -/
def planNode (eng : SimEngine) (cmp : List Scenario → ComparisonMatrix)
    (st : AgentState) : AgentState :=
  let step := st.current_issues.foldl
    (fun (acc : List Scenario × ComparisonMatrix) issue =>
      let scenarios :=
        generateScenarios eng issue st.trucks st.loads st.traffic_conditions 5
      if scenarios.isEmpty then acc
      else (acc.1 ++ scenarios, (acc.2 : List (String × ScoreDict)) ++ cmp scenarios))
    ([], ([] : List (String × ScoreDict)))
  { st with
    current_phase := .plan
    planning_result := some ⟨step.1, step.2, bestOverall step.2⟩
    scenarios := step.1 }

/-- `decision_node` (`src/decision/decision_node.py`).  When
`planning_result` is `None` (the placeholder of `run_control_loop`'s initial
state), `state.get("planning_result", {}).get(...)` raises
`AttributeError`, which the node's `except` turns into an error state with a
default `DecisionResult` (`requires_human_approval = False`); otherwise the
evaluator runs on the state's scenarios and comparison matrix. -/
def decideNode (cfg : EvaluatorConfig) (st : AgentState) : AgentState :=
  match st.planning_result with
  | none =>
    { st with
      current_phase := .decide
      decision_result := some ⟨none, [], false⟩
      selected_decision := none
      error_message := some "Decision failed: AttributeError" }
  | some pr =>
    let result := evaluateScenarios cfg st.scenarios pr.comparison_matrix
    { st with
      current_phase := .decide
      decision_result := some result
      selected_decision := result.selected_decision
      requires_human_intervention := result.requires_human_approval }

/-- `create_action_node.action_node` (`src/orchestration/graph.py`):
replaces `action_results` with one simulated success per selected decision
(none without a decision). -/
def actNode (st : AgentState) : AgentState :=
  match st.selected_decision with
  | some d =>
    { st with current_phase := .act, action_results := [⟨d.id, true⟩] }
  | none =>
    { st with current_phase := .act, action_results := [] }

/-- `create_feedback_node.feedback_node`: increments `total_cycles` (the
aggregated `feedback_result` record is write-only and elided). -/
def feedbackNode (st : AgentState) : AgentState :=
  { st with current_phase := .feedback, total_cycles := st.total_cycles + 1 }

/-- `should_continue` (`src/orchestration/graph.py`), returning the literal
`"continue"`, `"stop"` or `"human"`.  The checks run in source order: error
message (Python truthiness: `None` and `""` are falsy), human intervention,
continue flag, remaining issues. -/
def shouldContinue (st : AgentState) : String :=
  if pyStrOptTruthy st.error_message then "stop"
  else if st.requires_human_intervention then "human"
  else if ¬ st.continue_loop then "stop"
  else if st.current_issues.isEmpty then "stop"
  else "continue"

/-- The PLAN → DECIDE → ACT → FEEDBACK tail of one cycle (the linear edges
of `create_control_loop_graph`), after which `should_continue` is
evaluated. -/
def cycleFromPlan (eng : SimEngine) (cmp : List Scenario → ComparisonMatrix)
    (cfg : EvaluatorConfig) (st : AgentState) : AgentState :=
  feedbackNode (actNode (decideNode cfg (planNode eng cmp st)))

/-! ## Concrete fixtures for witnesses and counterexamples

All locations coincide, so `fun _ _ => 0` is exactly the source's Haversine
distance on every pair that occurs. -/

/-- Distance function of the concrete fixtures (all fixture locations are
the same point, where Haversine is `0`). -/
def wDist : Location → Location → ℚ := fun _ _ => 0

/-- Fixture location. -/
def wLoc : Location := ⟨40.7, -74.0⟩

/-- Fixture truck 1: idle at `wLoc`, 10 t capacity, full tank. -/
def wTruck1 : Truck := ⟨"T1", "Truck 1", .idle, some wLoc, none, 10000, 100⟩

/-- Fixture truck 2. -/
def wTruck2 : Truck := ⟨"T2", "Truck 2", .idle, some wLoc, none, 10000, 100⟩

/-- Fixture load whose delivery deadline (hour 50) already passed at the
fixture clock `now = 100`. -/
def wLoadPastDeadline : Load := ⟨"L1", "critical load", 100, .critical, wLoc, wLoc, some 50, none⟩

/-- Fixture unassigned load with id `L1`. -/
def wLoadL1 : Load := ⟨"L1", "load a", 100, .normal, wLoc, wLoc, none, none⟩

/-- A second fixture load that shares the id `L1`. -/
def wLoadL1b : Load := ⟨"L1", "load b", 100, .normal, wLoc, wLoc, none, none⟩

/-- Fixture unassigned load with id `L2` and no deadline. -/
def wLoadL2 : Load := ⟨"L2", "load c", 100, .normal, wLoc, wLoc, none, none⟩

/-- Fixture load already assigned to a truck. -/
def wLoadAssigned : Load := ⟨"L3", "assigned load", 100, .normal, wLoc, wLoc, none, some "T9"⟩

/-! ## C6: 2-opt monotonicity -/

/-- Invariant of `_two_opt_improve`'s loop state: the recorded best distance
is the distance of the recorded best tour, and it never exceeds the seed
distance `d0`. -/
def TwoOptInv (m : List (List ℚ)) (d0 : ℚ) (st : TwoOptState) : Prop :=
  st.bestDist = tourDistance m st.bestTour ∧ st.bestDist ≤ d0

theorem twoOptVisit_inv {m : List (List ℚ)} {d0 : ℚ} {st : TwoOptState}
    (p : ℕ × ℕ) (h : TwoOptInv m d0 st) : TwoOptInv m d0 (twoOptVisit m st p) := by
  unfold twoOptVisit
  dsimp only
  split
  · next hlt => exact ⟨rfl, le_of_lt (lt_of_lt_of_le hlt h.2)⟩
  · exact h

theorem twoOptPass_inv {m : List (List ℚ)} {d0 : ℚ} (n : ℕ) :
    ∀ (ps : List (ℕ × ℕ)) (st : TwoOptState), TwoOptInv m d0 st →
      TwoOptInv m d0 (ps.foldl (twoOptVisit m) st) := by
  intro ps
  induction ps with
  | nil => intro st h; exact h
  | cons p ps ih => intro st h; exact ih _ (twoOptVisit_inv p h)

theorem twoOptLoop_inv {m : List (List ℚ)} {d0 : ℚ} (n : ℕ) :
    ∀ (fuel : ℕ) (st : TwoOptState), TwoOptInv m d0 st →
      TwoOptInv m d0 (twoOptLoop m n fuel st) := by
  intro fuel
  induction fuel with
  | zero => intro st h; exact h
  | succ fuel ih =>
    intro st h
    unfold twoOptLoop
    split
    · exact ih _ (twoOptPass_inv n _ _ ⟨h.1, h.2⟩)
    · exact h

/-- C6: for every distance matrix and every input tour, the tour returned by
the 2-opt improvement step (`_two_opt_improve`, any number of passes) has
total cyclic tour distance at most that of the input tour. -/
theorem twoOptImprove_tourDistance_le (fuel : ℕ) (m : List (List ℚ)) (tour : List ℕ) :
    tourDistance m (twoOptImprove fuel m tour) ≤ tourDistance m tour := by
  have h := @twoOptLoop_inv m (tourDistance m tour) tour.length fuel
    ⟨tour, tour, tourDistance m tour, true⟩ ⟨rfl, le_refl _⟩
  unfold twoOptImprove
  exact h.1 ▸ h.2

/-! ## C2: `optimize_route` with more than two nodes -/

theorem length_pickup_delivery_nodes (loads : List Load) :
    (loads.flatMap fun l => [l.pickup_location, l.delivery_location]).length
      = 2 * loads.length := by
  induction loads with
  | nil => rfl
  | cons l ls ih => simp only [List.flatMap_cons, List.length_append, ih,
      List.length_cons, List.length_nil]; ring

/-- C2 (failing direction): for every truck and every list of at least two
loads (more than two pickup/delivery nodes), `optimize_route` raises
`TypeError` — `distance_matrix[1:, 1:]` indexes a plain list of lists with a
tuple — instead of returning an `OptimizedRoute`. -/
theorem optimizeRoute_raises_on_two_loads (dist : Location → Location → ℚ)
    (truck : Truck) (loads : List Load) (traffic : List TrafficCondition)
    (goal : String) (h : 2 ≤ loads.length) :
    optimizeRoute dist truck loads traffic goal =
      .error "TypeError: list indices must be integers or slices, not tuple" := by
  match loads, h with
  | l₀ :: l₁ :: rest, _ =>
    have hnc : ¬ ((l₀ :: l₁ :: rest).flatMap
        fun l => [l.pickup_location, l.delivery_location]).length ≤ 2 := by
      rw [length_pickup_delivery_nodes]
      simp only [List.length_cons]
      omega
    unfold optimizeRoute
    dsimp only
    rw [if_neg hnc]

/-- Witness instantiating `optimizeRoute_raises_on_two_loads` at a concrete
truck and two concrete loads. -/
theorem optimizeRoute_raises_on_two_loads_witness :
    2 ≤ ([wLoadL1, wLoadL2] : List Load).length ∧
    optimizeRoute wDist wTruck1 [wLoadL1, wLoadL2] [] "balanced" =
      .error "TypeError: list indices must be integers or slices, not tuple" :=
  ⟨by simp, optimizeRoute_raises_on_two_loads wDist wTruck1 [wLoadL1, wLoadL2] [] "balanced" (by simp)⟩

/-! ## C10: unknown strategy -/

/-- C10: with a strategy string outside the three known ones,
`assign_loads_to_trucks` raises `ValueError` when both the eligible truck
list and the unassigned load list are non-empty, and returns the empty
solution without ever inspecting the strategy when either list is empty. -/
theorem assign_unknown_strategy (dist : Location → Location → ℚ) (now : ℚ)
    (trucks : List Truck) (loads : List Load) (strategy : String) :
    ((trucks.filter isAvailableTruck ≠ [] ∧
      (loads.filter fun l => ¬ pyStrOptTruthy l.assigned_truck_id) ≠ [] ∧
      strategy ≠ "optimal" ∧ strategy ≠ "greedy" ∧ strategy ≠ "priority_first") →
      assignLoadsToTrucks dist now trucks loads strategy =
        .error ("Unknown strategy: " ++ strategy)) ∧
    ((trucks.filter isAvailableTruck = [] ∨
      (loads.filter fun l => ¬ pyStrOptTruthy l.assigned_truck_id) = []) →
      assignLoadsToTrucks dist now trucks loads strategy =
        .ok ⟨[], 0.0,
          ((loads.filter fun l => ¬ pyStrOptTruthy l.assigned_truck_id).map Load.id),
          0.0, 1.0⟩) := by
  constructor
  · rintro ⟨h1, h2, h3, h4, h5⟩
    unfold assignLoadsToTrucks
    rw [if_neg (by rw [not_or, List.isEmpty_iff, List.isEmpty_iff]; exact ⟨h1, h2⟩),
      if_neg h3, if_neg h4, if_neg h5]
  · intro h
    unfold assignLoadsToTrucks
    rw [if_pos (by simpa [List.isEmpty_iff] using h)]

/-- Witness for `assign_unknown_strategy`: the strategy `"banana"` raises on
a non-empty instance and is ignored on an instance with no eligible
truck. -/
theorem assign_unknown_strategy_witness :
    assignLoadsToTrucks wDist 100 [wTruck1] [wLoadL1] "banana" =
      .error "Unknown strategy: banana" ∧
    assignLoadsToTrucks wDist 100 [] [wLoadL1] "banana" =
      .ok ⟨[], 0.0, ["L1"], 0.0, 1.0⟩ := by
  constructor
  · exact (assign_unknown_strategy wDist 100 [wTruck1] [wLoadL1] "banana").1
      ⟨by decide, by decide, by decide, by decide, by decide⟩
  · exact ((assign_unknown_strategy wDist 100 [] [wLoadL1] "banana").2
      (Or.inl (by decide))).trans (by rfl)

/-! ## C8: already-assigned loads and empty eligible sets -/

/-- C8: when every load already carries a (truthy) `assigned_truck_id`, or
the eligible truck list is empty, `assign_loads_to_trucks` short-circuits to
the empty solution — no assignments, total cost `0`, utilisation `0`,
on-time probability `1` — and in the fully-assigned case the unassigned-load
id list is empty as well, so re-running on an already-fully-assigned load
set returns the same empty solution. -/
theorem assign_short_circuit_empty_solution (dist : Location → Location → ℚ)
    (now : ℚ) (trucks : List Truck) (loads : List Load) (strategy : String)
    (h : (∀ l ∈ loads, pyStrOptTruthy l.assigned_truck_id = true) ∨
      trucks.filter isAvailableTruck = []) :
    ∃ sol, assignLoadsToTrucks dist now trucks loads strategy = .ok sol ∧
      sol.assignments = [] ∧ sol.total_cost = 0 ∧ sol.utilization_rate = 0 ∧
      sol.on_time_probability = 1 ∧
      ((∀ l ∈ loads, pyStrOptTruthy l.assigned_truck_id = true) →
        sol.unassigned_loads = []) := by
  have key : ∀ h2 : (∀ l ∈ loads, pyStrOptTruthy l.assigned_truck_id = true) ∨
      trucks.filter isAvailableTruck = [],
      assignLoadsToTrucks dist now trucks loads strategy =
        .ok ⟨[], 0.0,
          ((loads.filter fun l => ¬ pyStrOptTruthy l.assigned_truck_id).map Load.id),
          0.0, 1.0⟩ := by
    intro h2
    unfold assignLoadsToTrucks
    rcases h2 with h2 | h2
    · rw [if_pos (Or.inr (by
        simp only [List.isEmpty_iff, List.filter_eq_nil_iff]
        intro a ha
        simp [h2 a ha]))]
    · rw [if_pos (Or.inl (by simp [List.isEmpty_iff, h2]))]
  refine ⟨_, key h, rfl, by norm_num, by norm_num, by norm_num, ?_⟩
  intro hall
  have hfil : (loads.filter fun l => ¬ pyStrOptTruthy l.assigned_truck_id) = [] := by
    rw [List.filter_eq_nil_iff]
    intro a ha
    simp [hall a ha]
  dsimp only
  rw [hfil]
  rfl

/-- Witness for `assign_short_circuit_empty_solution` on a single
already-assigned load. -/
theorem assign_short_circuit_empty_solution_witness :
    ∃ sol, assignLoadsToTrucks wDist 100 [wTruck1] [wLoadAssigned] "optimal" = .ok sol ∧
      sol.assignments = [] ∧ sol.total_cost = 0 ∧ sol.utilization_rate = 0 ∧
      sol.on_time_probability = 1 ∧
      ((∀ l ∈ [wLoadAssigned], pyStrOptTruthy l.assigned_truck_id = true) →
        sol.unassigned_loads = []) :=
  assign_short_circuit_empty_solution wDist 100 [wTruck1] [wLoadAssigned] "optimal"
    (Or.inl (by decide))

/-! ## C5 and C7: decision evaluator -/

/-- C5: `requires_human_approval` is true exactly when the scenario list is
empty, or the selected (top-scored) decision's confidence is below the
configured threshold, or its action type is reassign/escalate with
confidence below `0.85`. -/
theorem evaluateScenarios_requires_human_iff (cfg : EvaluatorConfig)
    (scenarios : List Scenario) (cm : ComparisonMatrix) :
    (evaluateScenarios cfg scenarios cm).requires_human_approval = true ↔
      (scenarios = [] ∨
        ∃ d, (evaluateScenarios cfg scenarios cm).selected_decision = some d ∧
          (d.confidence < cfg.confidence_threshold ∨
           ((d.action_type = .reassign ∨ d.action_type = .escalate) ∧
             d.confidence < 0.85))) := by
  rcases hs : scenarios with _ | ⟨s, ss⟩
  · simp [evaluateScenarios]
  · have hlen : (pySortBy (fun a b => decide (b.score ≤ a.score))
        ((s :: ss).map (mkDecision cfg cm))).length = ss.length + 1 := by
      rw [pySortBy_length, List.length_map, List.length_cons]
    obtain ⟨b, rest, hb⟩ :
        ∃ b rest, pySortBy (fun a b => decide (b.score ≤ a.score))
          ((s :: ss).map (mkDecision cfg cm)) = b :: rest := by
      cases hcase : pySortBy (fun a b => decide (b.score ≤ a.score))
          ((s :: ss).map (mkDecision cfg cm)) with
      | nil => rw [hcase] at hlen; simp at hlen
      | cons b rest => exact ⟨b, rest, rfl⟩
    unfold evaluateScenarios
    simp only [List.isEmpty_cons, Bool.false_eq_true, if_false, hb, List.head?_cons,
      List.tail_cons]
    simp only [Bool.or_eq_true, Bool.and_eq_true, decide_eq_true_eq, beq_iff_eq,
      Option.some.injEq]
    constructor
    · rintro (h | ⟨hact, hconf⟩)
      · exact Or.inr ⟨b, rfl, Or.inl h⟩
      · exact Or.inr ⟨b, rfl, Or.inr ⟨hact, hconf⟩⟩
    · rintro (h | ⟨d, hd, h⟩)
      · exact absurd h (by simp)
      · cases hd
        rcases h with h | ⟨hact, hconf⟩
        · exact Or.inl h
        · exact Or.inr ⟨hact, hconf⟩

/-- C7: every decision produced by `evaluate_scenarios` (the selected one
and every alternative) has `confidence = round(weighted_score ×
reliability, 3)`, recomputed from its scenario and never set
independently. -/
theorem decision_confidence_identity (cfg : EvaluatorConfig)
    (scenarios : List Scenario) (cm : ComparisonMatrix) (d : Decision)
    (h : (evaluateScenarios cfg scenarios cm).selected_decision = some d ∨
      d ∈ (evaluateScenarios cfg scenarios cm).alternatives) :
    ∃ s ∈ scenarios, d.scenario_id = s.id ∧
      d.confidence = round3 (weightedScore cfg cm s * s.reliability_score) := by
  have hmem : d ∈ scenarios.map (mkDecision cfg cm) := by
    rcases hs : scenarios with _ | ⟨s, ss⟩
    · rw [hs] at h
      simp [evaluateScenarios] at h
    · rw [hs] at h
      unfold evaluateScenarios at h
      simp only [List.isEmpty_cons, Bool.false_eq_true, if_false] at h
      have hd : d ∈ pySortBy (fun a b => decide (b.score ≤ a.score))
          ((s :: ss).map (mkDecision cfg cm)) := by
        rcases h with h | h
        · cases hcase : pySortBy (fun a b => decide (b.score ≤ a.score))
              ((s :: ss).map (mkDecision cfg cm)) with
          | nil => rw [hcase] at h; simp at h
          | cons b rest =>
            rw [hcase] at h
            simp only [List.head?_cons, Option.some.injEq] at h
            rw [← h]
            exact List.mem_cons_self b rest
        · cases hcase : pySortBy (fun a b => decide (b.score ≤ a.score))
              ((s :: ss).map (mkDecision cfg cm)) with
          | nil => rw [hcase] at h; simp at h
          | cons b rest =>
            rw [hcase] at h
            simp only [List.tail_cons] at h
            exact List.mem_cons_of_mem b h
      exact mem_pySortBy.mp hd
  obtain ⟨s, hsmem, hds⟩ := List.mem_map.mp hmem
  exact ⟨s, hsmem, by rw [← hds]; rfl, by rw [← hds]; rfl⟩

/-- Fixture scenario with one `reassign` action. -/
def wScen1 : Scenario := ⟨"S1", "scenario one", ["reassign"], 100, 60, 5, 0.8⟩

/-- Witness instantiating `decision_confidence_identity` at the decision
selected from a single concrete scenario. -/
theorem decision_confidence_identity_witness :
    ∃ s ∈ [wScen1], (mkDecision defaultEvaluatorConfig [] wScen1).scenario_id = s.id ∧
      (mkDecision defaultEvaluatorConfig [] wScen1).confidence =
        round3 (weightedScore defaultEvaluatorConfig [] s * s.reliability_score) :=
  decision_confidence_identity defaultEvaluatorConfig [wScen1] [] _ (Or.inl rfl)

/-! ## C9: scenario generator output -/

/-- C9: `generate_scenarios` returns at most `max_scenarios` scenarios,
sorted in descending order of the ranking score
`0.3/(1+time/60) + 0.2/(1+cost/100) + 0.5·reliability`. -/
theorem generateScenarios_bounded_and_ranked (eng : SimEngine) (issue : Issue)
    (trucks : List Truck) (loads : List Load) (traffic : List TrafficCondition)
    (max_scenarios : ℕ) :
    (generateScenarios eng issue trucks loads traffic max_scenarios).length ≤ max_scenarios ∧
    (generateScenarios eng issue trucks loads traffic max_scenarios).Pairwise
      (fun a b => scoreScenario b ≤ scoreScenario a) := by
  constructor
  · unfold generateScenarios rankScenarios
    rw [pySortBy_length, List.length_take]
    exact min_le_left _ _
  · unfold generateScenarios rankScenarios
    have hp := @pySortBy_pairwise Scenario
      (fun a b : Scenario => decide (scoreScenario b ≤ scoreScenario a))
      (fun a b => by
        rcases le_total (scoreScenario b) (scoreScenario a) with h | h
        · exact Or.inl (decide_eq_true h)
        · exact Or.inr (decide_eq_true h))
      (fun a b c hab hbc => by
        exact decide_eq_true (le_trans (of_decide_eq_true hbc) (of_decide_eq_true hab)))
      ((if issue.issue_type = "stuck" then
          generateStuckTruckScenarios eng issue (getAffectedTruck issue trucks)
            (getAffectedLoad issue loads) trucks traffic
        else if issue.issue_type = "delay" then generateDelayScenarios issue
        else if issue.issue_type = "traffic" then generateDelayScenarios issue
        else if issue.issue_type = "capacity_mismatch" then
          generateCapacityScenarios issue trucks loads
        else generateGenericScenarios issue).take max_scenarios)
    exact hp.imp fun h => of_decide_eq_true h

/-! ## C3: control-loop transition with zero issues -/

/-- Fixture agent state after a reasoning phase that produced zero issues:
no error, loop flag set, no human-intervention flag. -/
def wStateZeroIssues : AgentState :=
  { current_phase := ControlLoopPhase.reason
    trucks := []
    loads := []
    traffic_conditions := []
    current_issues := []
    planning_result := none
    scenarios := []
    selected_decision := none
    decision_result := none
    action_results := []
    continue_loop := true
    requires_human_intervention := false
    error_message := none
    total_cycles := 0 }

/-- Fixture simulation engine (its outputs are never consulted when there
are no issues). -/
def wSimEngine : SimEngine :=
  ⟨fun _ _ => ⟨0⟩, fun _ _ _ _ _ => [], fun _ _ _ => ⟨0, 0, 0⟩⟩

/-- C3 counterexample: on a concrete cycle whose reasoning produced zero
issues, the transition evaluated at FEEDBACK is `"human"`, not `"stop"`:
the planning phase yields zero scenarios, the decision evaluator flags the
empty scenario list as requiring human approval, and `should_continue`
checks the human-intervention flag before the no-issues rule. -/
theorem zero_issue_cycle_not_stop :
    shouldContinue (cycleFromPlan wSimEngine (fun _ => []) defaultEvaluatorConfig
      wStateZeroIssues) = "human" ∧
    shouldContinue (cycleFromPlan wSimEngine (fun _ => []) defaultEvaluatorConfig
      wStateZeroIssues) ≠ "stop" := by
  constructor
  · rfl
  · decide

/-- C3 (amended): after any cycle whose reasoning produced zero issues and
set no error message, the FEEDBACK transition returns `"human"` (in
particular never `"continue"`): the empty scenario list forces
`requires_human_approval`, which the decision node copies into
`requires_human_intervention`, and `should_continue` tests that flag before
the empty-issues rule. -/
theorem zero_issue_cycle_transitions_to_human (eng : SimEngine)
    (cmp : List Scenario → ComparisonMatrix) (cfg : EvaluatorConfig)
    (st : AgentState) (hissues : st.current_issues = [])
    (herr : st.error_message = none) :
    shouldContinue (cycleFromPlan eng cmp cfg st) = "human" := by
  unfold cycleFromPlan planNode
  rw [hissues]
  simp only [List.foldl_nil]
  unfold decideNode
  dsimp only
  unfold evaluateScenarios
  simp only [List.isEmpty_nil, if_true]
  unfold actNode
  dsimp only
  unfold feedbackNode shouldContinue
  simp [herr, pyStrOptTruthy]

/-- Witness instantiating `zero_issue_cycle_transitions_to_human` at the
concrete fixture state. -/
theorem zero_issue_cycle_transitions_to_human_witness :
    shouldContinue (cycleFromPlan wSimEngine (fun _ => []) defaultEvaluatorConfig
      wStateZeroIssues) = "human" :=
  zero_issue_cycle_transitions_to_human wSimEngine (fun _ => [])
    defaultEvaluatorConfig wStateZeroIssues rfl rfl

/-! ## C1 and C4: properties of the three assignment strategies -/

theorem createAssignment_truck_id (dist : Location → Location → ℚ) (now : ℚ)
    (t : Truck) (l : Load) (c : ℚ) : (createAssignment dist now t l c).truck_id = t.id := rfl

theorem createAssignment_load_id (dist : Location → Location → ℚ) (now : ℚ)
    (t : Truck) (l : Load) (c : ℚ) : (createAssignment dist now t l c).load_id = l.id := rfl

theorem mem_optimalPairs {dist : Location → Location → ℚ} {now : ℚ}
    {trucks : List Truck} {loads : List Load} {x : ℚ × ℕ × ℕ × Truck × Load}
    (hx : x ∈ optimalPairs dist now trucks loads) :
    x.2.2.2.1 ∈ trucks ∧ x.2.2.2.2 ∈ loads := by
  unfold optimalPairs at hx
  rw [List.mem_flatMap] at hx
  obtain ⟨p, hp, hx⟩ := hx
  rw [List.mem_filterMap] at hx
  obtain ⟨q, hq, hx⟩ := hx
  have hpm : p.2 ∈ trucks := by
    obtain ⟨hi, hget⟩ := List.getElem?_eq_some_iff.mp (List.mem_enum_iff_getElem?.mp hp)
    exact hget ▸ List.getElem_mem hi
  have hqm : q.2 ∈ loads := by
    obtain ⟨hi, hget⟩ := List.getElem?_eq_some_iff.mp (List.mem_enum_iff_getElem?.mp hq)
    exact hget ▸ List.getElem_mem hi
  cases hc : cellCost dist now p.2 q.2 with
  | none => rw [hc] at hx; exact Option.noConfusion hx
  | some c =>
    rw [hc] at hx
    have hx' : (c, p.1, q.1, p.2, q.2) = x := Option.some.inj hx
    rw [← hx']
    exact ⟨hpm, hqm⟩

/-- Invariant of `_optimal_assignment`'s pop loop: the committed id lists
mirror the assignment list, both are duplicate-free, and every committed
assignment stems from a constraint-checked (truck, load) pair of the
inputs. -/
def OptInv (dist : Location → Location → ℚ) (now : ℚ)
    (T : List Truck) (L : List Load) (st : OptState) : Prop :=
  st.assignments.map Assignment.truck_id = st.assigned_trucks ∧
  st.assignments.map Assignment.load_id = st.assigned_loads ∧
  st.assigned_trucks.Nodup ∧ st.assigned_loads.Nodup ∧
  (∀ a ∈ st.assignments, ∃ t ∈ T, ∃ l ∈ L, a.truck_id = t.id ∧ a.load_id = l.id ∧
    checkAssignmentConstraints dist now t l = true)

theorem optLoop_inv {dist : Location → Location → ℚ} {now : ℚ}
    {T : List Truck} {L : List Load} (n : ℕ) :
    ∀ (pairs : List (ℚ × ℕ × ℕ × Truck × Load)) (st : OptState),
      (∀ x ∈ pairs, x.2.2.2.1 ∈ T ∧ x.2.2.2.2 ∈ L) →
      OptInv dist now T L st →
      OptInv dist now T L (optLoop dist now n pairs st) := by
  intro pairs
  induction pairs with
  | nil => intro st _ h; exact h
  | cons x rest ih =>
    intro st hmem h
    obtain ⟨c, i, j, t, l⟩ := x
    have hx := hmem (c, i, j, t, l) (List.mem_cons_self _ _)
    unfold optLoop
    split
    · refine ih _ (fun y hy => hmem y (List.mem_cons_of_mem _ hy)) ?_
      split
      · next hids =>
        split
        · next hcheck =>
          obtain ⟨h1, h2, h3, h4, h5⟩ := h
          refine ⟨?_, ?_, ?_, ?_, ?_⟩
          · rw [List.map_append, h1]; rfl
          · rw [List.map_append, h2]; rfl
          · rw [List.nodup_append]
            exact ⟨h3, List.nodup_singleton _, by
              intro y hy hy'
              rw [List.mem_singleton] at hy'
              exact hids.1 (hy' ▸ hy)⟩
          · rw [List.nodup_append]
            exact ⟨h4, List.nodup_singleton _, by
              intro y hy hy'
              rw [List.mem_singleton] at hy'
              exact hids.2 (hy' ▸ hy)⟩
          · intro a ha
            rcases List.mem_append.mp ha with ha | ha
            · exact h5 a ha
            · rw [List.mem_singleton] at ha
              exact ⟨t, hx.1, l, hx.2, by rw [ha]; exact rfl, by rw [ha]; exact rfl,
                hcheck⟩
        · exact h
      · exact h
    · exact h

theorem optimalAssignment_inv (dist : Location → Location → ℚ) (now : ℚ)
    (T : List Truck) (L : List Load) :
    OptInv dist now T L
      (optLoop dist now L.length (pySortBy heapLe (optimalPairs dist now T L))
        ⟨[], 0, [], []⟩) := by
  refine optLoop_inv L.length _ _ (fun y hy => mem_optimalPairs (mem_pySortBy.mp hy)) ?_
  exact ⟨rfl, rfl, List.nodup_nil, List.nodup_nil, by intro a ha; cases ha⟩

theorem greedyPick_spec {dist : Location → Location → ℚ} {now : ℚ} {load : Load} :
    ∀ {avail : List Truck} {t : Truck} {c : ℚ},
      greedyPick dist now load avail = some (t, c) →
      t ∈ avail ∧ checkAssignmentConstraints dist now t load = true := by
  have aux : ∀ (A : List Truck) (rest : List Truck) (acc : Option (Truck × ℚ)),
      (∀ t c, acc = some (t, c) → t ∈ A ∧ checkAssignmentConstraints dist now t load = true) →
      (∀ u ∈ rest, u ∈ A) →
      ∀ t c, rest.foldl
        (fun best truck =>
          if checkAssignmentConstraints dist now truck load then
            match calculateAssignmentCost dist truck load with
            | none => best
            | some c =>
              match best with
              | none => some (truck, c)
              | some (_, bc) => if c < bc then some (truck, c) else best
          else best) acc = some (t, c) →
        t ∈ A ∧ checkAssignmentConstraints dist now t load = true := by
    intro A rest
    induction rest with
    | nil => intro acc hacc _ t c h; exact hacc t c h
    | cons x xs ih =>
      intro acc hacc hrest t c h
      rw [List.foldl_cons] at h
      refine ih _ ?_ (fun u hu => hrest u (List.mem_cons_of_mem _ hu)) t c h
      intro t' c' hacc'
      by_cases hchk : checkAssignmentConstraints dist now x load = true
      · rw [if_pos hchk] at hacc'
        cases hcost : calculateAssignmentCost dist x load with
        | none => rw [hcost] at hacc'; exact hacc t' c' hacc'
        | some cx =>
          rw [hcost] at hacc'
          cases hax : acc with
          | none =>
            simp only [hax] at hacc'
            have := Option.some.inj hacc'
            rw [← (Prod.mk.injEq _ _ _ _).mp this |>.1]
            exact ⟨hrest x (List.mem_cons_self _ _), hchk⟩
          | some p =>
            obtain ⟨tb, cb⟩ := p
            simp only [hax] at hacc'
            by_cases hlt : cx < cb
            · rw [if_pos hlt] at hacc'
              have := Option.some.inj hacc'
              rw [← (Prod.mk.injEq _ _ _ _).mp this |>.1]
              exact ⟨hrest x (List.mem_cons_self _ _), hchk⟩
            · rw [if_neg hlt] at hacc'
              exact hacc t' c' (hax.trans hacc')
      · rw [if_neg hchk] at hacc'
        exact hacc t' c' hacc'
  intro avail t c h
  exact aux avail avail none (by intro t' c' h'; cases h') (fun u hu => hu) t c h

theorem findBestTruckForLoad_spec {dist : Location → Location → ℚ} {load : Load}
    {traffic : List TrafficCondition} :
    ∀ {avail : List Truck} {t : Truck} {c : ℚ},
      findBestTruckForLoad dist load avail traffic = some (t, c) →
      t ∈ avail ∧ load.weight_kg ≤ t.capacity_kg := by
  have aux : ∀ (A : List Truck) (rest : List Truck) (acc : Option (Truck × ℚ)),
      (∀ t c, acc = some (t, c) → t ∈ A ∧ load.weight_kg ≤ t.capacity_kg) →
      (∀ u ∈ rest, u ∈ A) →
      ∀ t c, rest.foldl
        (fun best truck =>
          if truck.capacity_kg < load.weight_kg then best
          else
            match calculateTruckLoadScore dist truck load traffic with
            | none => best
            | some score =>
              match best with
              | none => some (truck, score)
              | some (_, bestScore) =>
                if score < bestScore then some (truck, score) else best) acc = some (t, c) →
        t ∈ A ∧ load.weight_kg ≤ t.capacity_kg := by
    intro A rest
    induction rest with
    | nil => intro acc hacc _ t c h; exact hacc t c h
    | cons x xs ih =>
      intro acc hacc hrest t c h
      rw [List.foldl_cons] at h
      refine ih _ ?_ (fun u hu => hrest u (List.mem_cons_of_mem _ hu)) t c h
      intro t' c' hacc'
      by_cases hcap : x.capacity_kg < load.weight_kg
      · rw [if_pos hcap] at hacc'
        exact hacc t' c' hacc'
      · rw [if_neg hcap] at hacc'
        cases hsc : calculateTruckLoadScore dist x load traffic with
        | none => rw [hsc] at hacc'; exact hacc t' c' hacc'
        | some sc =>
          rw [hsc] at hacc'
          cases hax : acc with
          | none =>
            simp only [hax] at hacc'
            have := Option.some.inj hacc'
            rw [← (Prod.mk.injEq _ _ _ _).mp this |>.1]
            exact ⟨hrest x (List.mem_cons_self _ _), le_of_not_lt hcap⟩
          | some p =>
            obtain ⟨tb, cb⟩ := p
            simp only [hax] at hacc'
            by_cases hlt : sc < cb
            · rw [if_pos hlt] at hacc'
              have := Option.some.inj hacc'
              rw [← (Prod.mk.injEq _ _ _ _).mp this |>.1]
              exact ⟨hrest x (List.mem_cons_self _ _), le_of_not_lt hcap⟩
            · rw [if_neg hlt] at hacc'
              exact hacc t' c' (hax.trans hacc')
  intro avail t c h
  exact aux avail avail none (by intro t' c' h'; cases h') (fun u hu => hu) t c h

theorem commitFold_mem {dist : Location → Location → ℚ} {now : ℚ}
    {pick : Load → List Truck → Option (Truck × ℚ)}
    {T₀ : List Truck} {LS : List Load} {P : Truck → Load → Prop}
    (hpick : ∀ l avail t c, pick l avail = some (t, c) → t ∈ avail ∧ P t l) :
    ∀ (order : List Load) (st : CState),
      (∀ l ∈ order, l ∈ LS) →
      (∀ t ∈ st.available, t ∈ T₀) →
      (∀ a ∈ st.assignments, ∃ t ∈ T₀, ∃ l ∈ LS,
        a.truck_id = t.id ∧ a.load_id = l.id ∧ P t l) →
      ∀ a ∈ (order.foldl (commitStep dist now pick) st).assignments,
        ∃ t ∈ T₀, ∃ l ∈ LS, a.truck_id = t.id ∧ a.load_id = l.id ∧ P t l := by
  intro order
  induction order with
  | nil => intro st _ _ hst; exact hst
  | cons l rest ih =>
    intro st horder havail hst
    rw [List.foldl_cons]
    refine ih _ (fun x hx => horder x (List.mem_cons_of_mem _ hx)) ?_ ?_
    · unfold commitStep
      cases hp : pick l st.available with
      | none => exact havail
      | some tc => exact fun u hu => havail u (List.mem_of_mem_erase hu)
    · unfold commitStep
      cases hp : pick l st.available with
      | none => exact hst
      | some tc =>
        obtain ⟨t, c⟩ := tc
        intro a ha
        rcases List.mem_append.mp ha with ha | ha
        · exact hst a ha
        · rw [List.mem_singleton] at ha
          obtain ⟨htmem, hP⟩ := hpick l st.available t c hp
          exact ⟨t, havail t htmem, l, horder l (List.mem_cons_self _ _),
            by rw [ha]; exact rfl, by rw [ha]; exact rfl, hP⟩

theorem commitFold_nodup_trucks {dist : Location → Location → ℚ} {now : ℚ}
    {pick : Load → List Truck → Option (Truck × ℚ)}
    (hpick : ∀ l avail t c, pick l avail = some (t, c) → t ∈ avail) :
    ∀ (order : List Load) (st : CState),
      (st.available.map Truck.id).Nodup →
      (∀ a ∈ st.assignments, a.truck_id ∉ st.available.map Truck.id) →
      (st.assignments.map Assignment.truck_id).Nodup →
      ((order.foldl (commitStep dist now pick) st).assignments.map
        Assignment.truck_id).Nodup := by
  intro order
  induction order with
  | nil => intro st _ _ h; exact h
  | cons l rest ih =>
    intro st havail hdisj hnodup
    rw [List.foldl_cons]
    unfold commitStep
    cases hp : pick l st.available with
    | none => exact ih st havail hdisj hnodup
    | some tc =>
      obtain ⟨t, c⟩ := tc
      have htmem := hpick l st.available t c hp
      have havailnd : st.available.Nodup := List.Nodup.of_map _ havail
      refine ih _ ?_ ?_ ?_
      · exact (List.Sublist.map Truck.id (List.erase_sublist t st.available)).nodup havail
      · intro a ha
        rcases List.mem_append.mp ha with ha | ha
        · intro hmem
          rw [List.mem_map] at hmem
          obtain ⟨u, hu, hid⟩ := hmem
          exact hdisj a ha (List.mem_map.mpr ⟨u, List.mem_of_mem_erase hu, hid⟩)
        · rw [List.mem_singleton] at ha
          rw [ha, createAssignment_truck_id]
          intro hmem
          rw [List.mem_map] at hmem
          obtain ⟨u, hu, hid⟩ := hmem
          have hu' : u ∈ st.available := List.mem_of_mem_erase hu
          have : u = t := List.inj_on_of_nodup_map havail hu' htmem hid
          rw [this] at hu
          exact absurd ((havailnd.mem_erase_iff).mp hu).1 (by simp)
      · rw [List.map_append]
        rw [List.nodup_append]
        refine ⟨hnodup, by simp, ?_⟩
        intro y hy hy'
        simp only [List.map_cons, List.map_nil, List.mem_singleton] at hy'
        rw [createAssignment_truck_id] at hy'
        rw [List.mem_map] at hy
        obtain ⟨a, ha, hid⟩ := hy
        exact hdisj a ha (hid ▸ hy' ▸ List.mem_map.mpr ⟨t, htmem, rfl⟩)

theorem commitStep_eq_of_some {dist : Location → Location → ℚ} {now : ℚ}
    {pick : Load → List Truck → Option (Truck × ℚ)} {st : CState} {l : Load}
    {t : Truck} {c : ℚ} (hp : pick l st.available = some (t, c)) :
    commitStep dist now pick st l =
      ⟨st.assignments ++ [createAssignment dist now t l c], st.total_cost + c,
        st.available.erase t⟩ := by
  unfold commitStep
  rw [hp]

theorem commitStep_eq_of_none {dist : Location → Location → ℚ} {now : ℚ}
    {pick : Load → List Truck → Option (Truck × ℚ)} {st : CState} {l : Load}
    (hp : pick l st.available = none) :
    commitStep dist now pick st l = st := by
  unfold commitStep
  rw [hp]

theorem commitFold_load_ids {dist : Location → Location → ℚ} {now : ℚ}
    {pick : Load → List Truck → Option (Truck × ℚ)} :
    ∀ (order : List Load) (st : CState),
      ∃ s, (order.foldl (commitStep dist now pick) st).assignments.map
          Assignment.load_id = st.assignments.map Assignment.load_id ++ s ∧
        s.Sublist (order.map Load.id) := by
  intro order
  induction order with
  | nil => intro st; exact ⟨[], by simp, List.nil_sublist _⟩
  | cons l rest ih =>
    intro st
    rw [List.foldl_cons]
    cases hp : pick l st.available with
    | none =>
      rw [commitStep_eq_of_none hp]
      obtain ⟨s, heq, hsub⟩ := ih st
      exact ⟨s, heq, hsub.cons _⟩
    | some tc =>
      obtain ⟨t, c⟩ := tc
      rw [commitStep_eq_of_some hp]
      obtain ⟨s, heq, hsub⟩ := ih
        ⟨st.assignments ++ [createAssignment dist now t l c], st.total_cost + c,
          st.available.erase t⟩
      refine ⟨l.id :: s, ?_, hsub.cons₂ _⟩
      rw [heq]
      simp [createAssignment_load_id]

/-- Case analysis of `assign_loads_to_trucks` on a successful return: either
the short-circuit produced the empty solution, or the solution came from the
strategy named by the (then necessarily known) strategy string. -/
theorem assign_ok_cases {dist : Location → Location → ℚ} {now : ℚ}
    {trucks : List Truck} {loads : List Load} {strat : String}
    {sol : AssignmentSolution}
    (h : assignLoadsToTrucks dist now trucks loads strat = .ok sol) :
    sol.assignments = [] ∨
    (strat = "optimal" ∧
      sol = optimalAssignment dist now (trucks.filter isAvailableTruck)
        (loads.filter fun l => ¬ pyStrOptTruthy l.assigned_truck_id)) ∨
    (strat = "greedy" ∧
      sol = greedyAssignment dist now (trucks.filter isAvailableTruck)
        (loads.filter fun l => ¬ pyStrOptTruthy l.assigned_truck_id)) ∨
    (strat = "priority_first" ∧
      sol = priorityFirstAssignment dist now (trucks.filter isAvailableTruck)
        (loads.filter fun l => ¬ pyStrOptTruthy l.assigned_truck_id)) := by
  unfold assignLoadsToTrucks at h
  by_cases h1 : (trucks.filter isAvailableTruck).isEmpty = true ∨
      ((loads.filter fun l => ¬ pyStrOptTruthy l.assigned_truck_id)).isEmpty = true
  · rw [if_pos h1] at h
    left
    rw [← Except.ok.inj h]
  · rw [if_neg h1] at h
    by_cases h2 : strat = "optimal"
    · rw [if_pos h2] at h
      exact Or.inr (Or.inl ⟨h2, (Except.ok.inj h).symm⟩)
    · rw [if_neg h2] at h
      by_cases h3 : strat = "greedy"
      · rw [if_pos h3] at h
        exact Or.inr (Or.inr (Or.inl ⟨h3, (Except.ok.inj h).symm⟩))
      · rw [if_neg h3] at h
        by_cases h4 : strat = "priority_first"
        · rw [if_pos h4] at h
          exact Or.inr (Or.inr (Or.inr ⟨h4, (Except.ok.inj h).symm⟩))
        · rw [if_neg h4] at h
          exact Except.noConfusion h

/-- C1 counterexample: with one truck (ample capacity, full tank, at the
load's location) and one critical load whose delivery deadline already
passed, strategy `priority_first` returns an `AssignmentSolution` whose
single `Assignment` pairs exactly that truck and load — yet
`check_assignment_constraints` is `False` for the pair (the deadline check
fails), because `find_best_truck_for_load` tests only capacity. -/
theorem priority_first_assignment_violates_constraints :
    (assignLoadsToTrucks wDist 100 [wTruck1] [wLoadPastDeadline]
        "priority_first").toOption.map
      (fun s => s.assignments.map fun a => (a.truck_id, a.load_id)) =
      some [("T1", "L1")] ∧
    checkAssignmentConstraints wDist 100 wTruck1 wLoadPastDeadline = false := by
  have h1 : ("priority_first" = "optimal") = False := by simp
  have h2 : ("priority_first" = "greedy") = False := by simp
  constructor
  · norm_num [assignLoadsToTrucks, priorityFirstAssignment, commitFold, commitStep,
      findBestTruckForLoad, calculateTruckLoadScore, isAvailableTruck, pyStrOptTruthy,
      isCriticalOrUrgent, pySortBy, pyInsert, deadlineLe, createAssignment, commitSolution,
      wDist, wTruck1, wLoadPastDeadline, wLoc, Except.toOption, calculateOnTimeProbability,
      calculateAssignmentConfidence, priorityToNumeric, h1, h2]
  · norm_num [checkAssignmentConstraints, estimateDeliveryTime, wDist, wTruck1,
      wLoadPastDeadline, wLoc]

/-- C1 (amended): every `Assignment` produced by the `optimal` or `greedy`
strategy pairs a truck and load satisfying `check_assignment_constraints`;
for `priority_first` only the capacity constraint is guaranteed, since
`find_best_truck_for_load` checks capacity alone. -/
theorem assignment_strategies_feasibility (dist : Location → Location → ℚ)
    (now : ℚ) (trucks : List Truck) (loads : List Load) :
    (∀ sol, assignLoadsToTrucks dist now trucks loads "optimal" = .ok sol →
      ∀ a ∈ sol.assignments, ∃ t ∈ trucks, ∃ l ∈ loads,
        a.truck_id = t.id ∧ a.load_id = l.id ∧
        checkAssignmentConstraints dist now t l = true) ∧
    (∀ sol, assignLoadsToTrucks dist now trucks loads "greedy" = .ok sol →
      ∀ a ∈ sol.assignments, ∃ t ∈ trucks, ∃ l ∈ loads,
        a.truck_id = t.id ∧ a.load_id = l.id ∧
        checkAssignmentConstraints dist now t l = true) ∧
    (∀ sol, assignLoadsToTrucks dist now trucks loads "priority_first" = .ok sol →
      ∀ a ∈ sol.assignments, ∃ t ∈ trucks, ∃ l ∈ loads,
        a.truck_id = t.id ∧ a.load_id = l.id ∧ l.weight_kg ≤ t.capacity_kg) := by
  refine ⟨?_, ?_, ?_⟩
  · intro sol h a ha
    rcases assign_ok_cases h with he | ⟨_, hsol⟩ | ⟨hs, _⟩ | ⟨hs, _⟩
    · rw [he] at ha; cases ha
    · rw [hsol] at ha
      unfold optimalAssignment at ha
      dsimp only at ha
      obtain ⟨t, ht, l, hl, hids⟩ :=
        (optimalAssignment_inv dist now (trucks.filter isAvailableTruck)
          (loads.filter fun l => ¬ pyStrOptTruthy l.assigned_truck_id)).2.2.2.2 a ha
      exact ⟨t, List.mem_of_mem_filter ht, l, List.mem_of_mem_filter hl, hids⟩
    · exact absurd hs (by decide)
    · exact absurd hs (by decide)
  · intro sol h a ha
    rcases assign_ok_cases h with he | ⟨hs, _⟩ | ⟨_, hsol⟩ | ⟨hs, _⟩
    · rw [he] at ha; cases ha
    · exact absurd hs (by decide)
    · rw [hsol] at ha
      unfold greedyAssignment commitSolution commitFold at ha
      dsimp only at ha
      obtain ⟨t, ht, l, hl, hids⟩ :=
        @commitFold_mem dist now (greedyPick dist now) trucks loads
          (fun t l => checkAssignmentConstraints dist now t l = true)
          (fun l avail t c hp => greedyPick_spec hp) _ _
          (fun x hx => List.mem_of_mem_filter (mem_pySortBy.mp hx))
          (fun t htm => List.mem_of_mem_filter htm)
          (by intro a ha; cases ha) a ha
      exact ⟨t, ht, l, hl, hids⟩
    · exact absurd hs (by decide)
  · intro sol h a ha
    rcases assign_ok_cases h with he | ⟨hs, _⟩ | ⟨hs, _⟩ | ⟨_, hsol⟩
    · rw [he] at ha; cases ha
    · exact absurd hs (by decide)
    · exact absurd hs (by decide)
    · rw [hsol] at ha
      unfold priorityFirstAssignment commitSolution commitFold at ha
      dsimp only at ha
      obtain ⟨t, ht, l, hl, hids⟩ :=
        @commitFold_mem dist now (fun l avail => findBestTruckForLoad dist l avail [])
          trucks loads (fun t l => l.weight_kg ≤ t.capacity_kg)
          (fun l avail t c hp => findBestTruckForLoad_spec hp) _ _
          (fun x hx => by
            rcases List.mem_append.mp hx with hx | hx
            · exact List.mem_of_mem_filter
                (List.mem_of_mem_filter (mem_pySortBy.mp hx))
            · exact List.mem_of_mem_filter (List.mem_of_mem_filter hx))
          (fun t htm => List.mem_of_mem_filter htm)
          (by intro a ha; cases ha) a ha
      exact ⟨t, ht, l, hl, hids⟩

/-- Fixture load that is feasible for `wTruck1` at `now = 100`. -/
def wLoadFeasible : Load := ⟨"L4", "feasible load", 100, .normal, wLoc, wLoc, none, none⟩

/-- Witness instantiating the `optimal` part of
`assignment_strategies_feasibility` at a concrete solved instance. -/
theorem assignment_strategies_feasibility_witness :
    ∃ t ∈ [wTruck1], ∃ l ∈ [wLoadFeasible],
      (createAssignment wDist 100 wTruck1 wLoadFeasible 0).truck_id = t.id ∧
      (createAssignment wDist 100 wTruck1 wLoadFeasible 0).load_id = l.id ∧
      checkAssignmentConstraints wDist 100 t l = true :=
  (assignment_strategies_feasibility wDist 100 [wTruck1] [wLoadFeasible]).1
    (optimalAssignment wDist 100 [wTruck1] [wLoadFeasible])
    (by norm_num [assignLoadsToTrucks, isAvailableTruck, pyStrOptTruthy, wTruck1,
      wLoadFeasible])
    (createAssignment wDist 100 wTruck1 wLoadFeasible 0)
    (by norm_num [optimalAssignment, optimalPairs, cellCost, checkAssignmentConstraints,
      estimateDeliveryTime, calculateAssignmentCost, priorityMultiplier, pySortBy, pyInsert,
      heapLe, optLoop, createAssignment, List.enum, List.enumFrom, wDist, wTruck1,
      wLoadFeasible, wLoc])

/-- C4 counterexample: with two distinct trucks and an input load list that
repeats the id `L1` (two load entries sharing one id), strategy `greedy`
assigns both entries, so the load id `L1` appears in two Assignments of the
returned solution. -/
theorem greedy_double_assigns_shared_load_id :
    (assignLoadsToTrucks wDist 100 [wTruck1, wTruck2] [wLoadL1, wLoadL1b]
        "greedy").toOption.map
      (fun s => s.assignments.map fun a => (a.truck_id, a.load_id)) =
      some [("T1", "L1"), ("T2", "L1")] ∧
    (assignLoadsToTrucks wDist 100 [wTruck1, wTruck2] [wLoadL1, wLoadL1b]
        "greedy").toOption.map
      (fun s => s.assignments.map Assignment.load_id) = some ["L1", "L1"] := by
  have h1 : ("greedy" = "optimal") = False := by simp
  constructor <;>
    norm_num [assignLoadsToTrucks, greedyAssignment, commitFold, commitStep, greedyPick,
      checkAssignmentConstraints, estimateDeliveryTime, calculateAssignmentCost,
      priorityMultiplier, greedyKeyLe, priorityToNumeric, deadlineLe, pySortBy, pyInsert,
      commitSolution, createAssignment, calculateAssignmentConfidence,
      calculateOnTimeProbability, isAvailableTruck, pyStrOptTruthy, List.erase_cons,
      wDist, wTruck1, wTruck2, wLoadL1, wLoadL1b, wLoc, Except.toOption, h1]

/-- C4 (amended): when the input truck ids and load ids are duplicate-free,
the solution returned by `assign_loads_to_trucks` (any of the three
strategies, or the short-circuit) commits no truck id and no load id to more
than one Assignment. -/
theorem assignment_ids_nodup (dist : Location → Location → ℚ) (now : ℚ)
    (trucks : List Truck) (loads : List Load) (strat : String)
    (sol : AssignmentSolution)
    (h : assignLoadsToTrucks dist now trucks loads strat = .ok sol)
    (ht : (trucks.map Truck.id).Nodup) (hl : (loads.map Load.id).Nodup) :
    (sol.assignments.map Assignment.truck_id).Nodup ∧
    (sol.assignments.map Assignment.load_id).Nodup := by
  have hATid : ((trucks.filter isAvailableTruck).map Truck.id).Nodup :=
    (List.Sublist.map Truck.id (List.filter_sublist trucks)).nodup ht
  have hULid : ∀ (p : Load → Bool), ((loads.filter p).map Load.id).Nodup :=
    fun p => (List.Sublist.map Load.id (List.filter_sublist loads)).nodup hl
  rcases assign_ok_cases h with he | ⟨_, hsol⟩ | ⟨_, hsol⟩ | ⟨_, hsol⟩
  · rw [he]
    exact ⟨List.nodup_nil, List.nodup_nil⟩
  · obtain ⟨h1, h2, h3, h4, _⟩ := optimalAssignment_inv dist now
      (trucks.filter isAvailableTruck)
      (loads.filter fun l => ¬ pyStrOptTruthy l.assigned_truck_id)
    rw [hsol]
    unfold optimalAssignment
    dsimp only
    exact ⟨h1 ▸ h3, h2 ▸ h4⟩
  · rw [hsol]
    unfold greedyAssignment commitSolution commitFold
    dsimp only
    constructor
    · exact commitFold_nodup_trucks
        (fun l avail t c hp => (greedyPick_spec hp).1) _ _
        hATid (by intro a ha; cases ha) (by simp)
    · obtain ⟨s, heq, hsub⟩ := @commitFold_load_ids dist now (greedyPick dist now)
        (pySortBy greedyKeyLe
          (loads.filter fun l => ¬ pyStrOptTruthy l.assigned_truck_id))
        ⟨[], 0, trucks.filter isAvailableTruck⟩
      rw [heq]
      have hord : ((pySortBy greedyKeyLe
          (loads.filter fun l => ¬ pyStrOptTruthy l.assigned_truck_id)).map
            Load.id).Nodup :=
        ((pySortBy_perm greedyKeyLe _).map Load.id).nodup_iff.mpr (hULid _)
      simpa using hsub.nodup hord
  · rw [hsol]
    unfold priorityFirstAssignment commitSolution commitFold
    dsimp only
    constructor
    · exact commitFold_nodup_trucks
        (fun l avail t c hp => (findBestTruckForLoad_spec hp).1) _ _
        hATid (by intro a ha; cases ha) (by simp)
    · obtain ⟨s, heq, hsub⟩ := @commitFold_load_ids dist now
        (fun l avail => findBestTruckForLoad dist l avail [])
        (pySortBy (fun a b => deadlineLe a.delivery_deadline b.delivery_deadline)
            ((loads.filter fun l => ¬ pyStrOptTruthy l.assigned_truck_id).filter
              isCriticalOrUrgent) ++
          ((loads.filter fun l => ¬ pyStrOptTruthy l.assigned_truck_id).filter
            fun l => ¬ isCriticalOrUrgent l))
        ⟨[], 0, trucks.filter isAvailableTruck⟩
      rw [heq]
      have hcrit : ((pySortBy
          (fun a b => deadlineLe a.delivery_deadline b.delivery_deadline)
          ((loads.filter fun l => ¬ pyStrOptTruthy l.assigned_truck_id).filter
            isCriticalOrUrgent)).map Load.id).Nodup := by
        refine ((pySortBy_perm _ _).map Load.id).nodup_iff.mpr ?_
        exact (List.Sublist.map Load.id
          ((List.filter_sublist _).trans (List.filter_sublist loads))).nodup hl
      have hnorm : ((((loads.filter fun l => ¬ pyStrOptTruthy l.assigned_truck_id)).filter
          fun l => ¬ isCriticalOrUrgent l).map Load.id).Nodup :=
        (List.Sublist.map Load.id
          ((List.filter_sublist _).trans (List.filter_sublist loads))).nodup hl
      have horder : ((pySortBy
          (fun a b => deadlineLe a.delivery_deadline b.delivery_deadline)
          ((loads.filter fun l => ¬ pyStrOptTruthy l.assigned_truck_id).filter
            isCriticalOrUrgent) ++
          ((loads.filter fun l => ¬ pyStrOptTruthy l.assigned_truck_id).filter
            fun l => ¬ isCriticalOrUrgent l)).map Load.id).Nodup := by
        rw [List.map_append, List.nodup_append]
        refine ⟨hcrit, hnorm, ?_⟩
        intro x hx hx'
        rw [List.mem_map] at hx hx'
        obtain ⟨u, hu, huid⟩ := hx
        obtain ⟨v, hv, hvid⟩ := hx'
        have hu' := mem_pySortBy.mp hu
        have huL : u ∈ loads :=
          List.mem_of_mem_filter (List.mem_of_mem_filter hu')
        have hvL : v ∈ loads :=
          List.mem_of_mem_filter (List.mem_of_mem_filter hv)
        have huv : u = v :=
          List.inj_on_of_nodup_map hl huL hvL (hvid ▸ huid)
        have hup := (List.mem_filter.mp hu').2
        have hvp := (List.mem_filter.mp hv).2
        rw [huv] at hup
        simp only [decide_eq_true_eq] at hvp
        exact hvp hup
      simpa using hsub.nodup horder

/-- Witness instantiating `assignment_ids_nodup` at a concrete solved
instance with distinct ids. -/
theorem assignment_ids_nodup_witness :
    ((optimalAssignment wDist 100 [wTruck1] [wLoadFeasible]).assignments.map
      Assignment.truck_id).Nodup ∧
    ((optimalAssignment wDist 100 [wTruck1] [wLoadFeasible]).assignments.map
      Assignment.load_id).Nodup :=
  assignment_ids_nodup wDist 100 [wTruck1] [wLoadFeasible] "optimal"
    (optimalAssignment wDist 100 [wTruck1] [wLoadFeasible])
    (by norm_num [assignLoadsToTrucks, isAvailableTruck, pyStrOptTruthy, wTruck1,
      wLoadFeasible])
    (by simp [wTruck1]) (by simp [wLoadFeasible])
